import Mathlib

/-!
RUI3 low-power firmware: custom AT commands and persisted send interval.

A shallow embedding of `src/custom_at.cpp` and of the simulated sensor in
`src/sensor_rak1901_fake.cpp`.

* The process-wide `custom_parameters`, the flash record at offset 0, the
  periodic timer `RAK_TIMER_0` and the serial output are fields of `State`.
* Calls into the RUI3 API (`api.system.flash`, `api.system.timer`) are recorded,
  in order, in `State.trace`.
* Whether a flash driver call succeeds is not decided by this module: the
  outcome of the `n`-th flash call is `ok n`, for an arbitrary `ok : Nat → Bool`.
* A C string is represented by the characters in front of its terminating NUL.
* `MYLOG` diagnostics are debug-only and are not part of the model.
-/

namespace HeriSure

/-! ## Data model -/

/-- Return codes of the AT framework that the handlers use. -/
inductive ATErrno where
  | AT_OK
  | AT_PARAM_ERROR
  deriving DecidableEq

/-- The record `custom_param_s`: a `uint8_t` validity flag and the `uint32_t`
send interval in milliseconds. -/
structure custom_param_s where
  valid_flag : Nat
  send_interval : Nat
  deriving DecidableEq

/-- Calls into the flash driver and the timer service. -/
inductive Event where
  | flash_get (ok : Bool)
  | flash_set (data : custom_param_s) (ok : Bool)
  | timer_stop
  | timer_start (period : Nat)
  deriving DecidableEq

/-- Everything the module reads or writes. `flash` is the image of a
`custom_param_s` stored at flash offset 0, `timer` is `none` while `RAK_TIMER_0`
is stopped and `some p` while it runs with period `p` ms, `serial` holds the
lines emitted by `AT_PRINTF`, `flash_calls` counts the flash driver calls. -/
structure State where
  custom_parameters : custom_param_s
  flash : custom_param_s
  timer : Option Nat
  serial : List String
  trace : List Event
  flash_calls : Nat
  deriving DecidableEq

/-- Argument vector handed over by the AT dispatch framework. -/
structure stParam where
  argc : Int
  argv : List String

/-- The sentinel of an initialised record. -/
def VALID_FLAG : Nat := 0xAA

/-- Width of `unsigned long` and of `uint32_t` on the 32-bit targets. -/
def UINT32_MOD : Nat := 2 ^ 32

/-- Largest `unsigned long`. -/
def ULONG_MAX : Nat := 2 ^ 32 - 1

/-! ## External services -/

/-- Model of `api.system.flash.set(0, buf, sizeof(custom_param_s))`: a write that
succeeds replaces the stored record, a write that fails leaves it alone. -/
def flash_set (ok : Nat → Bool) (data : custom_param_s) (s : State) : Bool × State :=
  (ok s.flash_calls,
   { s with
     flash := if ok s.flash_calls then data else s.flash
     trace := s.trace ++ [Event.flash_set data (ok s.flash_calls)]
     flash_calls := s.flash_calls + 1 })

/-- Model of `api.system.flash.get(0, buf, sizeof(custom_param_s))`: `some` record
when the read succeeds, `none` when the driver reports a failure. -/
def flash_get (ok : Nat → Bool) (s : State) : Option custom_param_s × State :=
  (if ok s.flash_calls then some s.flash else none,
   { s with
     trace := s.trace ++ [Event.flash_get (ok s.flash_calls)]
     flash_calls := s.flash_calls + 1 })

/-- Model of `api.system.timer.stop(RAK_TIMER_0)`. -/
def timer_stop (s : State) : State :=
  { s with timer := none, trace := s.trace ++ [Event.timer_stop] }

/-- Model of `api.system.timer.start(RAK_TIMER_0, period, nullptr)`. -/
def timer_start (period : Nat) (s : State) : State :=
  { s with timer := some period, trace := s.trace ++ [Event.timer_start period] }

/-- The macro `AT_PRINTF`: one line on the serial output. -/
def AT_PRINTF (line : String) (s : State) : State :=
  { s with serial := s.serial ++ [line] }

/-! ## C library pieces -/

/-- The function `isdigit` in the C locale. -/
def isdigit (c : Char) : Bool := decide (48 ≤ c.toNat) && decide (c.toNat ≤ 57)

/-- The function `isspace` in the C locale. -/
def isspace (c : Char) : Bool := decide (c.toNat = 32) || (decide (9 ≤ c.toNat) && decide (c.toNat ≤ 13))

/-- Value of one decimal digit character. -/
def digitVal (c : Char) : Nat := c.toNat - 48

/-- The digit-accumulation loop of `strtoul`. -/
def accDigits (acc : Nat) : List Char → Nat
  | [] => acc
  | c :: cs => accDigits (acc * 10 + digitVal c) cs

/-- Sign of the subject sequence of `strtoul` and what follows it. -/
def strtoul_sign : List Char → Bool × List Char
  | c :: cs => if c.toNat = 45 then (true, cs) else if c.toNat = 43 then (false, cs) else (false, c :: cs)
  | [] => (false, [])

/-- Model of `strtoul(nptr, &endptr, 10)` with a 32-bit `unsigned long`: returns
the converted value and the text `endptr` points to. Without any digit no
conversion is performed (value 0, `endptr = nptr`); a value above `ULONG_MAX`
is reported as `ULONG_MAX`. -/
def strtoul (nptr : List Char) : Nat × List Char :=
  let body := strtoul_sign (nptr.dropWhile isspace)
  let ds := body.2.takeWhile isdigit
  let v := accDigits 0 ds
  if ds = [] then (0, nptr)
  else if ULONG_MAX < v then (ULONG_MAX, body.2.dropWhile isdigit)
  else if body.1 then ((UINT32_MOD - v) % UINT32_MOD, body.2.dropWhile isdigit)
  else (v, body.2.dropWhile isdigit)

/-- Reading a 32-bit unsigned value as a 32-bit signed one, as `printf` does for
`%d` and `%ld`. -/
def to_int32 (v : Nat) : Int :=
  if v % UINT32_MOD < 2 ^ 31 then ((v % UINT32_MOD : Nat) : Int)
  else ((v % UINT32_MOD : Nat) : Int) - (UINT32_MOD : Int)

/-- The conversions `%d` and `%ld`. -/
def printf_d (i : Int) : String := toString i

/-- One uppercase hexadecimal digit. -/
def hexDigit (n : Nat) : Char := (Nat.digitChar (n % 16)).toUpper

/-- The conversion `%02X` of a byte. -/
def printf_02X (b : Nat) : String := String.mk [hexDigit (b % 256 / 16), hexDigit (b % 256 % 16)]

/-! ## Persisted configuration store -/

/-- The function `save_at_setting`: write `custom_parameters` to flash offset 0,
retry once when the first write fails, and report `true`. -/
def save_at_setting (ok : Nat → Bool) (s : State) : Bool × State :=
  let w1 := flash_set ok s.custom_parameters s
  let w2 := if !w1.1 then flash_set ok w1.2.custom_parameters w1.2 else w1
  (true, w2.2)

/-- The function `get_at_setting`: read the record at flash offset 0. -/
def get_at_setting (ok : Nat → Bool) (s : State) : Bool × State :=
  let g := flash_get ok s
  match g.1 with
  | none => (false, g.2)
  | some temp_params =>
    if temp_params.valid_flag ≠ VALID_FLAG then
      (false,
       (save_at_setting ok
         { g.2 with custom_parameters := { valid_flag := VALID_FLAG, send_interval := 0 } }).2)
    else
      (true,
       { g.2 with
         custom_parameters :=
           { g.2.custom_parameters with send_interval := temp_params.send_interval } })

/-! ## Interval controller and the SENDINT handler -/

/-- The second half of `update_send_interval` (from "Store old interval" on):
store the interval in milliseconds, stop the timer and start it again unless the
interval is 0, save when the interval changed. -/
def apply_interval (ok : Nat → Bool) (newInterval : Nat) (s : State) : State :=
  let oldInterval := s.custom_parameters.send_interval
  let s1 : State :=
    { s with
      custom_parameters :=
        { s.custom_parameters with send_interval := (newInterval * 1000) % UINT32_MOD } }
  let s2 := timer_stop s1
  let s3 :=
    if s2.custom_parameters.send_interval ≠ 0 then
      timer_start s2.custom_parameters.send_interval s2
    else s2
  if oldInterval ≠ s3.custom_parameters.send_interval then (save_at_setting ok s3).2 else s3

/-- The function `update_send_interval`: the digit check, the conversion with
`strtoul` into a `uint32_t`, the `*endptr` check, then `apply_interval`. -/
def update_send_interval (ok : Nat → Bool) (argv : String) (s : State) : ATErrno × State :=
  if !(argv.data.all isdigit) then (ATErrno.AT_PARAM_ERROR, s)
  else if (strtoul argv.data).2 ≠ [] then (ATErrno.AT_PARAM_ERROR, s)
  else (ATErrno.AT_OK, apply_interval ok ((strtoul argv.data).1 % UINT32_MOD) s)

/-- The function `interval_send_handler`. -/
def interval_send_handler (ok : Nat → Bool) (_port : Nat) (cmd : String) (param : stParam)
    (s : State) : ATErrno × State :=
  if param.argc = 1 ∧ param.argv.getD 0 "" = "?" then
    (ATErrno.AT_OK,
     AT_PRINTF (cmd ++ "=" ++ printf_d (to_int32 (s.custom_parameters.send_interval / 1000))) s)
  else if param.argc = 1 then
    if (update_send_interval ok (param.argv.getD 0 "") s).1 ≠ ATErrno.AT_OK then
      (ATErrno.AT_PARAM_ERROR, (update_send_interval ok (param.argv.getD 0 "") s).2)
    else (ATErrno.AT_OK, (update_send_interval ok (param.argv.getD 0 "") s).2)
  else (ATErrno.AT_PARAM_ERROR, s)

/-! ## The STATUS handler -/

/-- Values the handler obtains from the read-only getters of the RUI3 API. The
key getters deliver the bytes they copy into the caller's buffer. -/
structure Api where
  hwModel : String
  firmwareVer : String
  nwm : Int
  njs : Bool
  band : Int
  njm : Bool
  deui : List Nat
  appeui : List Nat
  appkey : List Nat
  appskey : List Nat
  nwkskey : List Nat
  daddr : List Nat
  pfreq : Nat
  psf : Nat
  pbw : Nat
  pcr : Nat
  ppl : Nat
  ptp : Nat
  pbr : Nat
  pfdev : Nat

/-- Regions as text array. -/
def regions_list : List String :=
  ["EU433", "CN470", "RU864", "IN865", "EU868", "US915", "AU915", "KR920", "AS923",
   "AS923-2", "AS923-3", "AS923-4", "LA915"]

/-- Network modes as text array. -/
def nwm_list : List String := ["P2P", "LoRaWAN", "FSK"]

/-- Indexing a C array with an `int`: `none` stands for a read outside the array,
which the C language leaves undefined. -/
def table_at (tbl : List String) (i : Int) : Option String :=
  if 0 ≤ i then tbl.get? i.toNat else none

/-- A key getter `get(key_eui, len)`: the first `len` bytes of the buffer are
overwritten, the others keep their content. -/
def key_get (src : List Nat) (len : Nat) (key_eui : List Nat) : List Nat :=
  ((src.take len).map (fun b => b % 256)) ++ key_eui.drop (src.take len).length

/-- The argument of a `%02X%02X...` format: the first `n` bytes of the buffer. -/
def hex_bytes (n : Nat) (key_eui : List Nat) : String :=
  String.join ((List.range n).map (fun i => printf_02X (key_eui.getD i 0)))

/-- Lines of the LoRaWAN branch that follow the two region lines. -/
def status_keys (api : Api) : List String :=
  let key0 : List Nat := List.replicate 16 0
  if api.njm then
    let k1 := key_get api.deui 8 key0
    let k2 := key_get api.appeui 8 k1
    let k3 := key_get api.appkey 16 k2
    ["OTAA mode", "DevEUI=" ++ hex_bytes 8 k1, "AppEUI=" ++ hex_bytes 8 k2,
     "AppKey=" ++ hex_bytes 16 k3]
  else
    let k1 := key_get api.appskey 16 key0
    let k2 := key_get api.nwkskey 16 k1
    let k3 := key_get api.daddr 4 k2
    ["ABP mode", "AppsKey=" ++ hex_bytes 16 k1, "NwsKey=" ++ hex_bytes 16 k2,
     "DevAddr=" ++ hex_bytes 4 k3]

/-- The lines printed by an accepted STATUS call, in order; `none` when one of
the two table lookups reads outside its array. -/
def status_lines (api : Api) (cfg : custom_param_s) : Option (List String) :=
  let head : List String :=
    ["Device Status:", "Module: " ++ api.hwModel.toUpper, "Version: " ++ api.firmwareVer,
     "Send time: " ++ printf_d (to_int32 (cfg.send_interval / 1000)) ++ " s"]
  match table_at nwm_list api.nwm with
  | none => none
  | some mode =>
    if api.nwm = 1 then
      match table_at regions_list api.band with
      | none => none
      | some region =>
        some (head ++ ["Network mode " ++ mode,
                       "Network " ++ (if api.njs then "joined" else "not joined"),
                       "Region: " ++ printf_d api.band, "Region: " ++ region]
                   ++ status_keys api)
    else if api.nwm = 0 then
      some (head ++ ["Network mode " ++ mode,
                     "Frequency = " ++ printf_d (to_int32 api.pfreq),
                     "SF = " ++ printf_d (to_int32 api.psf),
                     "BW = " ++ printf_d (to_int32 api.pbw),
                     "CR = " ++ printf_d (to_int32 api.pcr),
                     "Preamble length = " ++ printf_d (to_int32 api.ppl),
                     "TX power = " ++ printf_d (to_int32 api.ptp)])
    else
      some (head ++ ["Network mode " ++ mode,
                     "Frequency = " ++ printf_d (to_int32 api.pfreq),
                     "Bitrate = " ++ printf_d (to_int32 api.pbr),
                     "Deviaton = " ++ printf_d (to_int32 api.pfdev)])

/-- The function `status_handler`. The result is `none` when the call runs into
an array read outside `nwm_list` or `regions_list`. -/
def status_handler (api : Api) (_port : Nat) (_cmd : String) (param : stParam) (s : State) :
    Option (ATErrno × State) :=
  if (param.argc = 1 ∧ param.argv.getD 0 "" = "?") ∨ param.argc = 0 then
    match status_lines api s.custom_parameters with
    | none => none
    | some ls => some (ATErrno.AT_OK, { s with serial := s.serial ++ ls })
  else some (ATErrno.AT_PARAM_ERROR, s)

/-! ## The simulated sensor (`src/sensor_rak1901_fake.cpp`)

Floating-point values are the rationals they denote. Arithmetic is exact and each
result is rounded to nearest, ties to even, to 24 significant bits where the C
code holds a `float` and to 53 where it computes in `double`. The values that
occur are far from the overflow and subnormal ranges, which are not modelled. -/

/-- Position of the leading binary digit of `n` for `n < 2 ^ 2 ^ w`, by bisection:
when `n` has more than `2 ^ (w - 1)` digits the upper part is searched, else the
lower part. -/
def log2_bisect : Nat → Nat → Nat
  | 0, _ => 0
  | w + 1, n =>
    if 2 ^ 2 ^ w ≤ n then 2 ^ w + log2_bisect w (n / 2 ^ 2 ^ w) else log2_bisect w n

/-- Position of the leading binary digit of `n`, for `n` below `2 ^ 65536`, which
is beyond every numerator and denominator of a `double`. -/
def log2 (n : Nat) : Nat := log2_bisect 16 n

/-- The binary exponent `e` of the positive rational `n / d`:
`2 ^ e ≤ n / d < 2 ^ (e + 1)`. The difference of the digit positions of `n` and
`d` is `e` or `e + 1`; the comparison decides. -/
def ilog2 (n d : Nat) : Int :=
  if log2 d ≤ log2 n then
    if d * 2 ^ (log2 n - log2 d) ≤ n then ((log2 n - log2 d : Nat) : Int)
    else ((log2 n - log2 d : Nat) : Int) - 1
  else
    if d ≤ n * 2 ^ (log2 d - log2 n) then -((log2 d - log2 n : Nat) : Int)
    else -((log2 d - log2 n : Nat) : Int) - 1

/-- The quotient `a / b` rounded to the nearest natural number, ties to even. -/
def round_div (a b : Nat) : Nat :=
  if 2 * (a % b) < b then a / b
  else if b < 2 * (a % b) then a / b + 1
  else if (a / b) % 2 = 0 then a / b
  else a / b + 1

/-- The positive rational `n / d` rounded to the nearest multiple of `2 ^ k`, ties
to the even multiple. -/
def round_to_grid (n d : Nat) (k : Int) : ℚ :=
  if 0 ≤ k then ((round_div n (d * 2 ^ k.toNat) * 2 ^ k.toNat : Nat) : ℚ)
  else mkRat (round_div (n * 2 ^ (-k).toNat) d : Nat) (2 ^ (-k).toNat)

/-- Rounding to `p` significant binary digits, to nearest, ties to even: the
grid around `x` is the multiples of `2 ^ (e - p + 1)`, `e` the exponent of `x`. -/
def round_binary (p : Nat) (x : ℚ) : ℚ :=
  if x = 0 then 0
  else if 0 < x then
    round_to_grid x.num.toNat x.den (ilog2 x.num.toNat x.den - p + 1)
  else
    -round_to_grid (-x).num.toNat x.den (ilog2 (-x).num.toNat x.den - p + 1)

/-- Conversion to `float` (IEEE binary32). -/
def to_float (x : ℚ) : ℚ := round_binary 24 x

/-- Conversion to `double` (IEEE binary64); also the value of a decimal literal. -/
def to_double (x : ℚ) : ℚ := round_binary 53 x

/-- The macro `TEMPERATURE_MIN`, the `double` literal 12.7. -/
def TEMPERATURE_MIN : ℚ := to_double (127 / 10)

/-- The macro `TEMPERATURE_MAX`, the `double` literal 37.2. -/
def TEMPERATURE_MAX : ℚ := to_double (186 / 5)

/-- The macro `TEMPERATURE_STEP`, the `double` literal 0.06. -/
def TEMPERATURE_STEP : ℚ := to_double (3 / 50)

/-- The macro `HUMIDITY_MIN`, the `double` literal 45.5. -/
def HUMIDITY_MIN : ℚ := to_double (91 / 2)

/-- The macro `HUMIDITY_MAX`, the `double` literal 80.2. -/
def HUMIDITY_MAX : ℚ := to_double (401 / 5)

/-- The macro `HUMIDITY_STEP`, the `double` literal 0.65. -/
def HUMIDITY_STEP : ℚ := to_double (13 / 20)

/-- The two function-local statics of a simulated read: the `float` value and the
`uint8_t` direction (1 = up, 0 = down). -/
structure SimChannel where
  temp : ℚ
  direction : Nat
  deriving DecidableEq

/-- The body shared by `temperature_Read` and `humidity_Read`, which differ in the
three macros only. `temp += STEP` adds in `double` and stores a `float`; the
comparison is made in `double`; `temp = MAX` stores the bound as a `float`. The
result is the returned value and the new statics. -/
def fake_read (MIN MAX STEP : ℚ) (st : SimChannel) : ℚ × SimChannel :=
  if st.direction = 1 then
    if MAX ≤ to_float (to_double (st.temp + STEP)) then
      (to_float MAX, { temp := to_float MAX, direction := 0 })
    else
      (to_float (to_double (st.temp + STEP)),
       { temp := to_float (to_double (st.temp + STEP)), direction := 1 })
  else
    if to_float (to_double (st.temp - STEP)) ≤ MIN then
      (to_float MIN, { temp := to_float MIN, direction := 1 })
    else
      (to_float (to_double (st.temp - STEP)),
       { temp := to_float (to_double (st.temp - STEP)), direction := 0 })

/-- The simulated function `temperature_Read`. -/
def temperature_Read (st : SimChannel) : ℚ × SimChannel :=
  fake_read TEMPERATURE_MIN TEMPERATURE_MAX TEMPERATURE_STEP st

/-- The simulated function `humidity_Read`. -/
def humidity_Read (st : SimChannel) : ℚ × SimChannel :=
  fake_read HUMIDITY_MIN HUMIDITY_MAX HUMIDITY_STEP st

/-- The initial statics of `temperature_Read`. -/
def temperature_init : SimChannel := { temp := to_float TEMPERATURE_MIN, direction := 1 }

/-- The initial statics of `humidity_Read`. -/
def humidity_init : SimChannel := { temp := to_float HUMIDITY_MIN, direction := 1 }

/-- The statics after `n` calls of a read function. -/
def reads (f : SimChannel → ℚ × SimChannel) : Nat → SimChannel → SimChannel
  | 0, st => st
  | n + 1, st => reads f n (f st).2

/-- The value returned by the `n`-th call of `temperature_Read`, for `n ≥ 1`. -/
def temperature_nth (n : Nat) : ℚ :=
  (temperature_Read (reads temperature_Read (n - 1) temperature_init)).1

/-- The value returned by the `n`-th call of `humidity_Read`, for `n ≥ 1`. -/
def humidity_nth (n : Nat) : ℚ :=
  (humidity_Read (reads humidity_Read (n - 1) humidity_init)).1

/-- The value `temperature_Read` holds after `n` calls: the initial value for
`n = 0`, the value returned by call `n` otherwise. -/
def temperature_held (n : Nat) : ℚ := (reads temperature_Read n temperature_init).temp

/-- The value `humidity_Read` holds after `n` calls. -/
def humidity_held (n : Nat) : ℚ := (reads humidity_Read n humidity_init).temp

/-! ## Reference notions used in the statements -/

/-- The number a decimal digit string denotes, by positional weight: the digit in
front of `k` further digits counts `10 ^ k` times. -/
def decValue : List Char → Nat
  | [] => 0
  | c :: cs => digitVal c * 10 ^ cs.length + decValue cs

/-- The query vector of `SENDINT=?` and `STATUS=?`. -/
def query_param : stParam := { argc := 1, argv := ["?"] }

/-- A state before anything happened, with the given memory and flash records. -/
def boot_state (mem fl : custom_param_s) : State :=
  { custom_parameters := mem, flash := fl, timer := none, serial := [], trace := [],
    flash_calls := 0 }

/-- Load, save, load: the round trip of the configuration store. -/
def load_save_load (ok : Nat → Bool) (s : State) : State :=
  (get_at_setting ok (save_at_setting ok (get_at_setting ok s).2).2).2

/-- A sequence of SENDINT commands, one argument vector per command, handled in
order by `interval_send_handler`. -/
def run_sendint (ok : Nat → Bool) (port : Nat) (cmd : String) : List stParam → State → State
  | [], s => s
  | p :: ps, s => run_sendint ok port cmd ps (interval_send_handler ok port cmd p s).2

/-- The sixteen uppercase hexadecimal digits. -/
def HEX_DIGITS : List Char :=
  ['0', '1', '2', '3', '4', '5', '6', '7', '8', '9', 'A', 'B', 'C', 'D', 'E', 'F']

/-- Bytes written as unseparated uppercase hexadecimal pairs, high digit first. -/
def hex_upper : List Nat → List Char
  | [] => []
  | b :: bs => HEX_DIGITS.getD (b / 16) '0' :: HEX_DIGITS.getD (b % 16) '0' :: hex_upper bs

/-- The argument vectors `STATUS` and `STATUS=?` accept. -/
def status_accepts (param : stParam) : Prop :=
  param.argc = 0 ∨ (param.argc = 1 ∧ param.argv.getD 0 "" = "?")

/-- A radio stack in LoRaWAN mode, joined, OTAA, with the given region code. -/
def otaa_api (band : Int) : Api :=
  { hwModel := "rak3172", firmwareVer := "RUI_4.1.0", nwm := 1, njs := true, band := band,
    njm := true, deui := [0xAC, 0x1F, 0x09, 0xFF, 0xFE, 0x05, 0x7B, 0x3E],
    appeui := [0, 0, 0, 0, 0, 0, 0, 1],
    appkey := [0xEF, 0xAD, 0xFF, 0x29, 0xC7, 0x7B, 0x48, 0x29, 0xAC, 0xF7, 0x1E, 0x1A, 0x6E,
               0x76, 0xF7, 0x13],
    appskey := [], nwkskey := [], daddr := [], pfreq := 868000000, psf := 7, pbw := 0,
    pcr := 0, ppl := 8, ptp := 14, pbr := 0, pfdev := 0 }

/-- What the call at phase `j` of a period does to the statics `a`, giving `b`:
the value stays within `lo` and `hi`; up to phase `T` it rises by `step` up to
`err`, at phase `T` it rises to `hi` and the direction flips, then it falls by
`step` up to `err`, and at the last phase `L` it falls to `lo` and the direction
flips back. -/
def wave_step_ok (lo hi step err : ℚ) (T L j : Nat) (a b : SimChannel) : Prop :=
  lo ≤ b.temp ∧ b.temp ≤ hi ∧
  (j < T → a.direction = 1 ∧ b.direction = 1 ∧ a.temp < b.temp ∧
    b.temp - a.temp - step ≤ err ∧ step - (b.temp - a.temp) ≤ err) ∧
  (j = T → a.direction = 1 ∧ b.direction = 0 ∧ a.temp < b.temp ∧ b.temp = hi) ∧
  (T < j ∧ j < L → a.direction = 0 ∧ b.direction = 0 ∧ b.temp < a.temp ∧
    a.temp - b.temp - step ≤ err ∧ step - (a.temp - b.temp) ≤ err) ∧
  (j = L → a.direction = 0 ∧ b.direction = 1 ∧ b.temp < a.temp ∧ b.temp = lo)

/-- The property `wave_step_ok` can be computed. -/
instance wave_step_ok_decidable (lo hi step err : ℚ) (T L j : Nat) (a b : SimChannel) :
    Decidable (wave_step_ok lo hi step err T L j a b) := by
  unfold wave_step_ok
  exact inferInstance

/-- One pass over `n` successive calls starting at phase `i`, testing each call:
the statics after the last call, or `none` when a test fails. -/
def check_run (f : SimChannel → ℚ × SimChannel) (P : Nat → SimChannel → SimChannel → Bool) :
    Nat → Nat → SimChannel → Option SimChannel
  | 0, _, st => some st
  | n + 1, i, st => if P i st (f st).2 then check_run f P n (i + 1) (f st).2 else none

/-- The test applied to each call of `temperature_Read`. -/
def temperature_test (j : Nat) (a b : SimChannel) : Bool :=
  decide (wave_step_ok (13316915 / 2 ^ 20) (9751757 / 2 ^ 18) (3 / 50) (1 / 500000) 408 817 j a b)

/-- The test applied to each call of `humidity_Read`. -/
def humidity_test (j : Nat) (a b : SimChannel) : Bool :=
  decide (wave_step_ok (91 / 2) (5255987 / 2 ^ 16) (13 / 20) (1 / 500000) 53 107 j a b)

/-- A radio stack in LoRaWAN mode whose network-mode getter returns the given code. -/
def nwm_api (nwm : Int) : Api :=
  { hwModel := "rak3172", firmwareVer := "RUI_4.1.0", nwm := nwm, njs := true, band := 4,
    njm := true, deui := [], appeui := [], appkey := [], appskey := [], nwkskey := [],
    daddr := [], pfreq := 868000000, psf := 7, pbw := 0, pcr := 0, ppl := 8, ptp := 14,
    pbr := 0, pfdev := 0 }

/-! ## Observations on traces -/

/-- Flash write calls in a trace. -/
def flash_writes (t : List Event) : List Event :=
  t.filter (fun e => match e with
    | Event.flash_set _ _ => true
    | _ => false)

/-- Timer calls in a trace. -/
def timer_calls (t : List Event) : List Event :=
  t.filter (fun e => match e with
    | Event.timer_stop => true
    | Event.timer_start _ => true
    | _ => false)

/-- The calls recorded between state `s` and a later state `s2`. -/
def events_since (s s2 : State) : List Event := s2.trace.drop s.trace.length

end HeriSure

namespace HeriSure

/-! ## Lemmas on the C library pieces -/

theorem accDigits_nil (acc : Nat) : accDigits acc [] = acc := rfl

theorem accDigits_cons (acc : Nat) (c : Char) (cs : List Char) :
    accDigits acc (c :: cs) = accDigits (acc * 10 + digitVal c) cs := rfl

theorem decValue_nil : decValue [] = 0 := rfl

theorem decValue_cons (c : Char) (cs : List Char) :
    decValue (c :: cs) = digitVal c * 10 ^ cs.length + decValue cs := rfl

theorem accDigits_eq (ds : List Char) (acc : Nat) :
    accDigits acc ds = acc * 10 ^ ds.length + decValue ds := by
  induction ds generalizing acc with
  | nil => simp only [accDigits_nil, decValue_nil, List.length_nil, pow_zero, mul_one, add_zero]
  | cons c cs ih =>
    simp only [accDigits_cons, decValue_cons, List.length_cons, ih, pow_succ]
    ring

theorem accDigits_zero (ds : List Char) : accDigits 0 ds = decValue ds := by
  simp [accDigits_eq]

theorem isdigit_not_isspace (c : Char) (h : isdigit c = true) : isspace c = false := by
  simp only [isdigit, Bool.and_eq_true, decide_eq_true_eq] at h
  simp only [isspace, Bool.or_eq_false_iff, decide_eq_false_iff_not, Bool.and_eq_false_iff]
  omega

theorem takeWhile_isdigit (ds : List Char) (h : ds.all isdigit = true) :
    ds.takeWhile isdigit = ds := by
  induction ds with
  | nil => rfl
  | cons c cs ih =>
    simp only [List.all_cons, Bool.and_eq_true] at h
    simp [List.takeWhile_cons, h.1, ih h.2]

theorem dropWhile_isdigit (ds : List Char) (h : ds.all isdigit = true) :
    ds.dropWhile isdigit = [] := by
  induction ds with
  | nil => rfl
  | cons c cs ih =>
    simp only [List.all_cons, Bool.and_eq_true] at h
    simp [List.dropWhile_cons, h.1, ih h.2]

theorem strtoul_sign_digits (ds : List Char) (h : ds.all isdigit = true) :
    strtoul_sign ds = (false, ds) := by
  cases ds with
  | nil => rfl
  | cons c cs =>
    simp only [List.all_cons, Bool.and_eq_true, isdigit, decide_eq_true_eq] at h
    have h1 : c.toNat ≠ 45 := by omega
    have h2 : c.toNat ≠ 43 := by omega
    simp [strtoul_sign, h1, h2]

theorem dropWhile_isspace_digits (ds : List Char) (h : ds.all isdigit = true) :
    ds.dropWhile isspace = ds := by
  cases ds with
  | nil => rfl
  | cons c cs =>
    simp only [List.all_cons, Bool.and_eq_true] at h
    simp [List.dropWhile_cons, isdigit_not_isspace c h.1]

/-- On a digits-only text `strtoul` consumes everything and yields the denoted
number, capped at `ULONG_MAX`. -/
theorem strtoul_digits (ds : List Char) (h : ds.all isdigit = true) :
    strtoul ds = (min (decValue ds) ULONG_MAX, []) := by
  unfold strtoul
  simp only [dropWhile_isspace_digits ds h, strtoul_sign_digits ds h, takeWhile_isdigit ds h,
    dropWhile_isdigit ds h, accDigits_zero]
  by_cases hnil : ds = []
  · subst hnil
    simp [decValue_nil]
  · simp only [hnil, if_false]
    by_cases hbig : ULONG_MAX < decValue ds
    · simp [hbig, Nat.min_eq_right (Nat.le_of_lt hbig)]
    · simp [hbig, Nat.min_eq_left (Nat.le_of_not_lt hbig)]

end HeriSure

namespace HeriSure

/-! ## Lemmas on the store and the interval controller -/

theorem all_isdigit_of_forall (l : List Char) (h : ∀ c ∈ l, isdigit c = true) :
    l.all isdigit = true := by
  simpa [List.all_eq_true] using h

theorem save_at_setting_custom_parameters (ok : Nat → Bool) (s : State) :
    (save_at_setting ok s).2.custom_parameters = s.custom_parameters := by
  unfold save_at_setting flash_set
  by_cases h : ok s.flash_calls <;> simp [h]

theorem save_at_setting_serial (ok : Nat → Bool) (s : State) :
    (save_at_setting ok s).2.serial = s.serial := by
  unfold save_at_setting flash_set
  by_cases h : ok s.flash_calls <;> simp [h]

theorem save_at_setting_timer (ok : Nat → Bool) (s : State) :
    (save_at_setting ok s).2.timer = s.timer := by
  unfold save_at_setting flash_set
  by_cases h : ok s.flash_calls <;> simp [h]

/-- The calls issued by `save_at_setting`: one write, and a second one exactly
when the first failed. -/
theorem save_at_setting_trace (ok : Nat → Bool) (s : State) :
    (save_at_setting ok s).2.trace =
      s.trace ++
        (if ok s.flash_calls then [Event.flash_set s.custom_parameters true]
         else [Event.flash_set s.custom_parameters false,
               Event.flash_set s.custom_parameters (ok (s.flash_calls + 1))]) := by
  unfold save_at_setting flash_set
  by_cases h : ok s.flash_calls <;> simp [h]

theorem events_since_append (s s2 : State) (evs : List Event)
    (h : s2.trace = s.trace ++ evs) : events_since s s2 = evs := by
  simp [events_since, h]

theorem apply_interval_custom_parameters (ok : Nat → Bool) (n : Nat) (s : State) :
    (apply_interval ok n s).custom_parameters =
      { valid_flag := s.custom_parameters.valid_flag, send_interval := (n * 1000) % UINT32_MOD } := by
  unfold apply_interval timer_stop timer_start
  generalize (n * 1000) % UINT32_MOD = m
  by_cases h0 : m = 0 <;> by_cases h1 : s.custom_parameters.send_interval = m <;>
    (try subst h0) <;> simp [*, save_at_setting_custom_parameters]

theorem apply_interval_serial (ok : Nat → Bool) (n : Nat) (s : State) :
    (apply_interval ok n s).serial = s.serial := by
  unfold apply_interval timer_stop timer_start
  generalize (n * 1000) % UINT32_MOD = m
  by_cases h0 : m = 0 <;> by_cases h1 : s.custom_parameters.send_interval = m <;>
    (try subst h0) <;> simp [*, save_at_setting_serial]

/-- The calls issued by `apply_interval`, in order. -/
theorem apply_interval_trace (ok : Nat → Bool) (n : Nat) (s : State) :
    (apply_interval ok n s).trace =
      s.trace ++
        ([Event.timer_stop] ++
          (if (n * 1000) % UINT32_MOD ≠ 0 then [Event.timer_start ((n * 1000) % UINT32_MOD)]
           else []) ++
          (if s.custom_parameters.send_interval ≠ (n * 1000) % UINT32_MOD then
             (if ok s.flash_calls then
                [Event.flash_set ⟨s.custom_parameters.valid_flag, (n * 1000) % UINT32_MOD⟩ true]
              else
                [Event.flash_set ⟨s.custom_parameters.valid_flag, (n * 1000) % UINT32_MOD⟩ false,
                 Event.flash_set ⟨s.custom_parameters.valid_flag, (n * 1000) % UINT32_MOD⟩
                   (ok (s.flash_calls + 1))])
           else [])) := by
  unfold apply_interval timer_stop timer_start
  generalize (n * 1000) % UINT32_MOD = m
  by_cases h0 : m = 0 <;> by_cases h1 : s.custom_parameters.send_interval = m <;>
    by_cases h2 : ok s.flash_calls <;>
    (try subst h0) <;> simp [*, h2, save_at_setting_trace]

/-- A digits-only argument is accepted and applied. -/
theorem update_send_interval_digits (ok : Nat → Bool) (argv : String) (s : State)
    (h : argv.data.all isdigit = true) :
    update_send_interval ok argv s =
      (ATErrno.AT_OK, apply_interval ok (min (decValue argv.data) ULONG_MAX % UINT32_MOD) s) := by
  simp [update_send_interval, h, strtoul_digits]

/-- An argument with a character that is not a digit is rejected, state untouched. -/
theorem update_send_interval_reject (ok : Nat → Bool) (argv : String) (s : State)
    (h : argv.data.all isdigit = false) :
    update_send_interval ok argv s = (ATErrno.AT_PARAM_ERROR, s) := by
  simp [update_send_interval, h]

/-- The controller itself prints nothing. -/
theorem update_send_interval_serial (ok : Nat → Bool) (argv : String) (s : State) :
    (update_send_interval ok argv s).2.serial = s.serial := by
  unfold update_send_interval
  split_ifs <;> simp [apply_interval_serial]

theorem interval_send_handler_query (ok : Nat → Bool) (port : Nat) (cmd : String) (s : State) :
    interval_send_handler ok port cmd query_param s =
      (ATErrno.AT_OK,
       AT_PRINTF (cmd ++ "=" ++ printf_d (to_int32 (s.custom_parameters.send_interval / 1000))) s) := by
  simp [interval_send_handler, query_param]

theorem interval_send_handler_set (ok : Nat → Bool) (port : Nat) (cmd arg : String) (s : State)
    (harg : arg ≠ "?") (h : (update_send_interval ok arg s).1 = ATErrno.AT_OK) :
    interval_send_handler ok port cmd { argc := 1, argv := [arg] } s =
      (ATErrno.AT_OK, (update_send_interval ok arg s).2) := by
  simp [interval_send_handler, harg, h]

theorem printf_d_small (v : Nat) (h : v < 2 ^ 31) : printf_d (to_int32 v) = toString v := by
  have h1 : v % UINT32_MOD = v := Nat.mod_eq_of_lt (by unfold UINT32_MOD; omega)
  simp only [to_int32, h1, h, if_true]
  rfl

end HeriSure

namespace HeriSure

/-! ## SENDINT: set and query -/

/-- Seconds that fit: the stored interval is the value times 1000, unwrapped. -/
theorem update_send_interval_small (ok : Nat → Bool) (S : String) (s : State)
    (hall : S.data.all isdigit = true) (hV : decValue S.data * 1000 < 2 ^ 32) :
    (update_send_interval ok S s).2.custom_parameters.send_interval = decValue S.data * 1000 := by
  rw [update_send_interval_digits ok S s hall]
  simp only [apply_interval_custom_parameters]
  unfold ULONG_MAX UINT32_MOD
  rw [Nat.min_eq_left (by omega), Nat.mod_eq_of_lt (by omega), Nat.mod_eq_of_lt (by omega)]

/-- Setting a value that fits and querying it reports the value. -/
theorem set_then_query (ok ok2 : Nat → Bool) (port : Nat) (cmd S : String) (s : State)
    (hall : S.data.all isdigit = true) (hV : decValue S.data * 1000 < 2 ^ 32) :
    interval_send_handler ok2 port cmd query_param (update_send_interval ok S s).2 =
      (ATErrno.AT_OK,
       AT_PRINTF (cmd ++ "=" ++ toString (decValue S.data)) (update_send_interval ok S s).2) := by
  rw [interval_send_handler_query, update_send_interval_small ok S s hall hV,
    Nat.mul_div_cancel _ (by norm_num : 0 < 1000), printf_d_small _ (by omega)]

/-- C1: a non-empty digits-only string S whose value V has V * 1000 below 2 ^ 32 is
accepted by update_send_interval from every prior state, the stored interval
divided by 1000 is V, and a following SENDINT query returns AT_OK and prints
the command name, an equals sign and V; in particular SENDINT=3600 prints nothing
itself and the query after it prints exactly the line SENDINT=3600. -/
theorem C1_set_then_query_reports_value (ok ok2 : Nat → Bool) (port : Nat) (cmd S : String)
    (s : State) (_hne : S.data ≠ []) (hdig : ∀ c ∈ S.data, isdigit c = true)
    (hV : decValue S.data * 1000 < 2 ^ 32) :
    ((update_send_interval ok S s).1 = ATErrno.AT_OK ∧
     (update_send_interval ok S s).2.custom_parameters.send_interval / 1000 = decValue S.data ∧
     interval_send_handler ok2 port cmd query_param (update_send_interval ok S s).2 =
       (ATErrno.AT_OK,
        AT_PRINTF (cmd ++ "=" ++ toString (decValue S.data)) (update_send_interval ok S s).2)) ∧
    ((interval_send_handler ok port "SENDINT" { argc := 1, argv := ["3600"] } s).1 =
        ATErrno.AT_OK ∧
     (interval_send_handler ok port "SENDINT" { argc := 1, argv := ["3600"] } s).2.serial =
        s.serial ∧
     (interval_send_handler ok2 port "SENDINT" query_param
        (interval_send_handler ok port "SENDINT" { argc := 1, argv := ["3600"] } s).2).1 =
        ATErrno.AT_OK ∧
     (interval_send_handler ok2 port "SENDINT" query_param
        (interval_send_handler ok port "SENDINT" { argc := 1, argv := ["3600"] } s).2).2.serial =
        s.serial ++ ["SENDINT=3600"]) := by
  have hall := all_isdigit_of_forall _ hdig
  refine ⟨⟨?_, ?_, set_then_query ok ok2 port cmd S s hall hV⟩, ?_⟩
  · rw [update_send_interval_digits ok S s hall]
  · rw [update_send_interval_small ok S s hall hV, Nat.mul_div_cancel _ (by norm_num : 0 < 1000)]
  · have h3600 : ("3600" : String).data.all isdigit = true := by decide
    have hval : decValue ("3600" : String).data = 3600 := by decide
    have hfit : decValue ("3600" : String).data * 1000 < 2 ^ 32 := by rw [hval]; norm_num
    have hset := interval_send_handler_set ok port "SENDINT" "3600" s (by decide)
      (by rw [update_send_interval_digits ok _ s h3600])
    have hq := set_then_query ok ok2 port "SENDINT" "3600" s h3600 hfit
    rw [hset, hq]
    refine ⟨rfl, update_send_interval_serial ok _ s, rfl, ?_⟩
    simp only [AT_PRINTF, update_send_interval_serial, hval]
    rfl

/-- C1 at the string 60 from a boot state: accepted, and the query prints SENDINT=60. -/
theorem C1_set_then_query_reports_value_witness :
    (update_send_interval (fun _ => true) "60" (boot_state ⟨170, 0⟩ ⟨170, 0⟩)).1 = ATErrno.AT_OK ∧
    (interval_send_handler (fun _ => true) 0 "SENDINT" query_param
      (update_send_interval (fun _ => true) "60" (boot_state ⟨170, 0⟩ ⟨170, 0⟩)).2).2.serial =
      ["SENDINT=60"] := by
  have h := C1_set_then_query_reports_value (fun _ => true) (fun _ => true) 0 "SENDINT" "60"
    (boot_state ⟨170, 0⟩ ⟨170, 0⟩) (by decide) (by decide) (by decide)
  refine ⟨h.1.1, ?_⟩
  rw [h.1.2.2]
  decide

/-- C2 (the empty string): update_send_interval accepts the empty string from
every prior state, returns AT_OK, sets the interval to 0 and leaves the timer
stopped, where the claim asks for AT_PARAM_ERROR and an unchanged interval. -/
theorem C2_empty_string_is_accepted (ok : Nat → Bool) (s : State) :
    (update_send_interval ok "" s).1 = ATErrno.AT_OK ∧
    (update_send_interval ok "" s).2.custom_parameters.send_interval = 0 ∧
    (update_send_interval ok "" s).2.timer = none ∧
    (update_send_interval (fun _ => true) "" (boot_state ⟨170, 5000⟩ ⟨170, 5000⟩)).2.flash =
      ⟨170, 0⟩ := by
  have hall : ("" : String).data.all isdigit = true := by decide
  have hval : decValue ("" : String).data = 0 := by decide
  refine ⟨?_, ?_, ?_, by decide⟩
  · rw [update_send_interval_digits ok _ s hall]
  · rw [update_send_interval_small ok _ s hall (by rw [hval]; norm_num), hval]
  · rw [update_send_interval_digits ok _ s hall, hval]
    unfold apply_interval timer_stop timer_start
    by_cases h1 : s.custom_parameters.send_interval = 0 <;>
      simp [h1, save_at_setting_timer, UINT32_MOD]

/-- C3: with an argument count other than 1 the SENDINT handler returns
AT_PARAM_ERROR and hands back the very state it was given: no output, and
configuration, flash record, timer and call trace untouched. -/
theorem C3_wrong_argument_count_rejected (ok : Nat → Bool) (port : Nat) (cmd : String)
    (param : stParam) (s : State) (h : param.argc ≠ 1) :
    interval_send_handler ok port cmd param s = (ATErrno.AT_PARAM_ERROR, s) := by
  simp [interval_send_handler, h]

/-- C3 at two arguments, the first of which alone would have been a valid value. -/
theorem C3_wrong_argument_count_rejected_witness :
    interval_send_handler (fun _ => true) 0 "SENDINT" { argc := 2, argv := ["60", "?"] }
      (boot_state ⟨170, 5000⟩ ⟨170, 5000⟩) =
      (ATErrno.AT_PARAM_ERROR, boot_state ⟨170, 5000⟩ ⟨170, 5000⟩) :=
  C3_wrong_argument_count_rejected (fun _ => true) 0 "SENDINT" { argc := 2, argv := ["60", "?"] }
    (boot_state ⟨170, 5000⟩ ⟨170, 5000⟩) (by decide)

end HeriSure

namespace HeriSure

/-! ## Saving only on change -/

theorem flash_writes_append (a b : List Event) :
    flash_writes (a ++ b) = flash_writes a ++ flash_writes b := by
  simp [flash_writes]

/-- The flash writes issued by `apply_interval`. -/
theorem apply_interval_flash_writes (ok : Nat → Bool) (n : Nat) (s : State) :
    flash_writes (events_since s (apply_interval ok n s)) =
      if s.custom_parameters.send_interval ≠ (n * 1000) % UINT32_MOD then
        (if ok s.flash_calls then
           [Event.flash_set ⟨s.custom_parameters.valid_flag, (n * 1000) % UINT32_MOD⟩ true]
         else
           [Event.flash_set ⟨s.custom_parameters.valid_flag, (n * 1000) % UINT32_MOD⟩ false,
            Event.flash_set ⟨s.custom_parameters.valid_flag, (n * 1000) % UINT32_MOD⟩
              (ok (s.flash_calls + 1))])
      else [] := by
  rw [events_since_append s _ _ (apply_interval_trace ok n s)]
  generalize (n * 1000) % UINT32_MOD = m
  by_cases h0 : m = 0 <;> by_cases h1 : s.custom_parameters.send_interval = m <;>
    by_cases h2 : ok s.flash_calls <;> (try subst h0) <;> simp [flash_writes, *]

/-- A call that returns AT_OK was given digits only. -/
theorem digits_of_update_ok (ok : Nat → Bool) (argv : String) (s : State)
    (h : (update_send_interval ok argv s).1 = ATErrno.AT_OK) : argv.data.all isdigit = true := by
  by_contra hall
  rw [update_send_interval_reject ok argv s (by simpa using hall)] at h
  cases h

/-- C4: when update_send_interval returns AT_OK, flash writes (the calls made by
save_at_setting) are issued during the call if and only if the interval stored
by the call differs from the interval held before it; a second call with the same
argument then returns AT_OK too and issues no flash write. -/
theorem C4_save_iff_interval_changed (ok ok2 : Nat → Bool) (argv : String) (s : State)
    (h : (update_send_interval ok argv s).1 = ATErrno.AT_OK) :
    (flash_writes (events_since s (update_send_interval ok argv s).2) ≠ [] ↔
      (update_send_interval ok argv s).2.custom_parameters.send_interval ≠
        s.custom_parameters.send_interval) ∧
    (update_send_interval ok2 argv (update_send_interval ok argv s).2).1 = ATErrno.AT_OK ∧
    flash_writes (events_since (update_send_interval ok argv s).2
      (update_send_interval ok2 argv (update_send_interval ok argv s).2).2) = [] := by
  have hall := digits_of_update_ok ok argv s h
  refine ⟨?_, ?_, ?_⟩
  · rw [update_send_interval_digits ok argv s hall]
    simp only [apply_interval_flash_writes, apply_interval_custom_parameters]
    generalize (min (decValue argv.data) ULONG_MAX % UINT32_MOD * 1000) % UINT32_MOD = m
    by_cases h1 : s.custom_parameters.send_interval = m
    · simp [h1]
    · by_cases h2 : ok s.flash_calls <;> simp [h1, h2, Ne.symm h1]
  · rw [update_send_interval_digits ok2 argv _ hall]
  · rw [update_send_interval_digits ok2 argv _ hall, update_send_interval_digits ok argv s hall]
    simp [apply_interval_flash_writes, apply_interval_custom_parameters]

/-- C4 at the argument 0 given twice from a state with interval 5000 ms: the first
call writes to flash, the second does not. -/
theorem C4_save_iff_interval_changed_witness :
    flash_writes (events_since (boot_state ⟨170, 5000⟩ ⟨170, 5000⟩)
        (update_send_interval (fun _ => true) "0" (boot_state ⟨170, 5000⟩ ⟨170, 5000⟩)).2) ≠ [] ∧
    flash_writes (events_since
        (update_send_interval (fun _ => true) "0" (boot_state ⟨170, 5000⟩ ⟨170, 5000⟩)).2
        (update_send_interval (fun _ => true) "0"
          (update_send_interval (fun _ => true) "0"
            (boot_state ⟨170, 5000⟩ ⟨170, 5000⟩)).2).2) = [] := by
  have h := C4_save_iff_interval_changed (fun _ => true) (fun _ => true) "0"
    (boot_state ⟨170, 5000⟩ ⟨170, 5000⟩) (by decide)
  exact ⟨h.1.mpr (by decide), h.2.2⟩

/-! ## The persisted configuration store -/

/-- C9: save_at_setting returns true whatever the flash writes do, issues one
flash write of the in-memory record when the first write succeeds and two when
it fails, issues no other call, and leaves the in-memory configuration alone. -/
theorem C9_save_reports_true_and_retries_once (ok : Nat → Bool) (s : State) :
    (save_at_setting ok s).1 = true ∧
    (save_at_setting ok s).2.custom_parameters = s.custom_parameters ∧
    events_since s (save_at_setting ok s).2 =
      (if ok s.flash_calls then [Event.flash_set s.custom_parameters true]
       else [Event.flash_set s.custom_parameters false,
             Event.flash_set s.custom_parameters (ok (s.flash_calls + 1))]) ∧
    (flash_writes (events_since s (save_at_setting ok s).2)).length =
      (if ok s.flash_calls then 1 else 2) := by
  refine ⟨rfl, save_at_setting_custom_parameters ok s, ?_, ?_⟩
  · exact events_since_append s _ _ (save_at_setting_trace ok s)
  · rw [events_since_append s _ _ (save_at_setting_trace ok s)]
    by_cases h : ok s.flash_calls <;> simp [h, flash_writes]

end HeriSure

namespace HeriSure

/-- C5 (as stated, refuted): all flash calls succeed, the in-memory record starts
as interval 0 with the flag unset (0) and the flash holds the valid record with
5000 ms. The first load gives flag 0 and 5000 ms, save stores the unset flag, and
the second load finds no valid record and resets memory to flag 0xAA, 0 ms. -/
theorem C5_round_trip_unset_flag_counterexample :
    (get_at_setting (fun _ => true) (boot_state ⟨0, 0⟩ ⟨0xAA, 5000⟩)).1 = true ∧
    (get_at_setting (fun _ => true) (boot_state ⟨0, 0⟩ ⟨0xAA, 5000⟩)).2.custom_parameters =
      ⟨0, 5000⟩ ∧
    (save_at_setting (fun _ => true)
      (get_at_setting (fun _ => true) (boot_state ⟨0, 0⟩ ⟨0xAA, 5000⟩)).2).2.flash = ⟨0, 5000⟩ ∧
    (load_save_load (fun _ => true) (boot_state ⟨0, 0⟩ ⟨0xAA, 5000⟩)).custom_parameters =
      ⟨0xAA, 0⟩ ∧
    (load_save_load (fun _ => true) (boot_state ⟨0, 0⟩ ⟨0xAA, 5000⟩)).custom_parameters ≠
      (get_at_setting (fun _ => true) (boot_state ⟨0, 0⟩ ⟨0xAA, 5000⟩)).2.custom_parameters := by
  decide

/-- C5 (amended): with all flash calls succeeding, from every state whose
in-memory validity flag is 0xAA, and from every state whose stored validity byte
is not 0xAA, load, save, load ends with the same in-memory record as the first
load, and that record is what the flash then holds. -/
theorem C5_round_trip_with_valid_flag (s : State)
    (hflag : s.custom_parameters.valid_flag = 0xAA ∨ s.flash.valid_flag ≠ 0xAA) :
    (load_save_load (fun _ => true) s).custom_parameters =
      (get_at_setting (fun _ => true) s).2.custom_parameters ∧
    (load_save_load (fun _ => true) s).flash =
      (get_at_setting (fun _ => true) s).2.custom_parameters := by
  by_cases hfl : s.flash.valid_flag = 170
  · have hmem : s.custom_parameters.valid_flag = 170 := by
      rcases hflag with h | h
      · exact h
      · exact absurd hfl h
    simp [load_save_load, get_at_setting, save_at_setting, flash_get, flash_set, VALID_FLAG,
      hfl, hmem]
  · simp [load_save_load, get_at_setting, save_at_setting, flash_get, flash_set, VALID_FLAG, hfl]

/-- C5 (amended) at the in-memory record with flag 0xAA and the valid flash record
with 5000 ms: the round trip ends with flag 0xAA and 5000 ms in memory. -/
theorem C5_round_trip_with_valid_flag_witness :
    (load_save_load (fun _ => true) (boot_state ⟨0xAA, 0⟩ ⟨0xAA, 5000⟩)).custom_parameters =
      (get_at_setting (fun _ => true) (boot_state ⟨0xAA, 0⟩ ⟨0xAA, 5000⟩)).2.custom_parameters ∧
    (load_save_load (fun _ => true) (boot_state ⟨0xAA, 0⟩ ⟨0xAA, 5000⟩)).flash =
      (get_at_setting (fun _ => true) (boot_state ⟨0xAA, 0⟩ ⟨0xAA, 5000⟩)).2.custom_parameters :=
  C5_round_trip_with_valid_flag (boot_state ⟨0xAA, 0⟩ ⟨0xAA, 5000⟩) (Or.inl rfl)

/-- C6: when the flash read succeeds and the stored validity byte is not 0xAA,
get_at_setting returns false, the in-memory record becomes flag 0xAA with
interval 0, and after the read the only calls are flash writes of exactly that
record (one, or two when the first fails); once a write succeeds the flash holds
that record. The stored interval plays no part. -/
theorem C6_first_boot_resets_and_persists (ok : Nat → Bool) (s : State)
    (hread : ok s.flash_calls = true) (hflag : s.flash.valid_flag ≠ 0xAA) :
    (get_at_setting ok s).1 = false ∧
    (get_at_setting ok s).2.custom_parameters = ⟨0xAA, 0⟩ ∧
    events_since s (get_at_setting ok s).2 =
      Event.flash_get true ::
        (if ok (s.flash_calls + 1) then [Event.flash_set ⟨0xAA, 0⟩ true]
         else [Event.flash_set ⟨0xAA, 0⟩ false,
               Event.flash_set ⟨0xAA, 0⟩ (ok (s.flash_calls + 2))]) ∧
    ((ok (s.flash_calls + 1) = true ∨ ok (s.flash_calls + 2) = true) →
      (get_at_setting ok s).2.flash = ⟨0xAA, 0⟩) := by
  have hflag2 : ¬ s.flash.valid_flag = 170 := hflag
  by_cases h1 : ok (s.flash_calls + 1) <;> by_cases h2 : ok (s.flash_calls + 2) <;>
    simp [get_at_setting, save_at_setting, flash_get, flash_set, events_since, VALID_FLAG,
      hread, hflag2, h1, h2]

/-- C6 at a flash filled with flag 0x00 and a stray interval. -/
theorem C6_first_boot_resets_and_persists_witness :
    (get_at_setting (fun _ => true) (boot_state ⟨0, 0⟩ ⟨0, 123456⟩)).1 = false ∧
    (get_at_setting (fun _ => true) (boot_state ⟨0, 0⟩ ⟨0, 123456⟩)).2.custom_parameters =
      ⟨0xAA, 0⟩ ∧
    (get_at_setting (fun _ => true) (boot_state ⟨0, 0⟩ ⟨0, 123456⟩)).2.flash = ⟨0xAA, 0⟩ := by
  have h := C6_first_boot_resets_and_persists (fun _ => true) (boot_state ⟨0, 0⟩ ⟨0, 123456⟩)
    rfl (by decide)
  exact ⟨h.1, h.2.1, h.2.2.2 (Or.inl rfl)⟩

/-- C7: when the flash read succeeds and the stored validity byte is 0xAA,
get_at_setting returns true, the in-memory interval becomes the stored interval,
the in-memory flag and the flash keep their content, and the read is the only
call: no flash write. -/
theorem C7_valid_record_is_loaded (ok : Nat → Bool) (s : State)
    (hread : ok s.flash_calls = true) (hflag : s.flash.valid_flag = 0xAA) :
    (get_at_setting ok s).1 = true ∧
    (get_at_setting ok s).2.custom_parameters.send_interval = s.flash.send_interval ∧
    (get_at_setting ok s).2.custom_parameters.valid_flag = s.custom_parameters.valid_flag ∧
    (get_at_setting ok s).2.flash = s.flash ∧
    events_since s (get_at_setting ok s).2 = [Event.flash_get true] ∧
    flash_writes (events_since s (get_at_setting ok s).2) = [] := by
  have hflag2 : s.flash.valid_flag = 170 := hflag
  simp [get_at_setting, flash_get, events_since, flash_writes, VALID_FLAG, hread, hflag2]

/-- C7 at the valid flash record with 60000 ms. -/
theorem C7_valid_record_is_loaded_witness :
    (get_at_setting (fun _ => true) (boot_state ⟨0xAA, 0⟩ ⟨0xAA, 60000⟩)).1 = true ∧
    (get_at_setting (fun _ => true)
      (boot_state ⟨0xAA, 0⟩ ⟨0xAA, 60000⟩)).2.custom_parameters.send_interval = 60000 := by
  have h := C7_valid_record_is_loaded (fun _ => true) (boot_state ⟨0xAA, 0⟩ ⟨0xAA, 60000⟩)
    rfl rfl
  exact ⟨h.1, h.2.1⟩

/-- C8: when the flash read fails, get_at_setting returns false, the in-memory
record and the flash keep their content, and the failed read is the only call:
no flash write. -/
theorem C8_read_failure_changes_nothing (ok : Nat → Bool) (s : State)
    (hread : ok s.flash_calls = false) :
    (get_at_setting ok s).1 = false ∧
    (get_at_setting ok s).2.custom_parameters = s.custom_parameters ∧
    (get_at_setting ok s).2.flash = s.flash ∧
    events_since s (get_at_setting ok s).2 = [Event.flash_get false] ∧
    flash_writes (events_since s (get_at_setting ok s).2) = [] := by
  simp [get_at_setting, flash_get, events_since, flash_writes, hread]

/-- C8 at boot with the defaults in memory and a flash whose read fails. -/
theorem C8_read_failure_changes_nothing_witness :
    (get_at_setting (fun _ => false) (boot_state ⟨0, 0⟩ ⟨0xAA, 60000⟩)).1 = false ∧
    (get_at_setting (fun _ => false) (boot_state ⟨0, 0⟩ ⟨0xAA, 60000⟩)).2.custom_parameters =
      ⟨0, 0⟩ :=
  have h := C8_read_failure_changes_nothing (fun _ => false) (boot_state ⟨0, 0⟩ ⟨0xAA, 60000⟩) rfl
  ⟨h.1, h.2.1⟩

end HeriSure

namespace HeriSure

/-! ## The STATUS handler: accepted argument vectors -/

/-- An index inside the table reads an entry. -/
theorem table_at_in_range (tbl : List String) (i : Int) (h0 : 0 ≤ i) (h1 : i < tbl.length) :
    ∃ x, table_at tbl i = some x := by
  have hlt : i.toNat < tbl.length := by omega
  exact ⟨tbl.get ⟨i.toNat, hlt⟩, by simp [table_at, h0, List.get?_eq_get hlt]⟩

/-- With both table reads inside their arrays the lines are defined. -/
theorem status_lines_defined (api : Api) (cfg : custom_param_s)
    (hnwm : 0 ≤ api.nwm ∧ api.nwm < 3)
    (hband : api.nwm = 1 → 0 ≤ api.band ∧ api.band < 13) :
    ∃ ls, status_lines api cfg = some ls := by
  obtain ⟨mode, hmode⟩ := table_at_in_range nwm_list api.nwm hnwm.1 (by simpa [nwm_list] using hnwm.2)
  unfold status_lines
  simp only [hmode]
  by_cases h1 : api.nwm = 1
  · obtain ⟨region, hregion⟩ := table_at_in_range regions_list api.band (hband h1).1
      (by simpa [regions_list] using (hband h1).2)
    simp [h1, hregion]
  · by_cases h0 : api.nwm = 0 <;> simp [h1, h0]

/-- C10 (amended): status_handler returns AT_PARAM_ERROR with the state untouched (no
line emitted) for every argument vector other than zero arguments or the single
argument ?; whenever it returns, the code is AT_OK exactly for zero arguments or
the single argument ?, and configuration, flash record, timer and call trace are
as before; and for zero arguments or the single argument ? it does return AT_OK,
adding only lines to the serial output, as long as the network mode and the
region read from the radio stack index inside nwm_list and regions_list. -/
theorem C10_status_handler_accepts_only_query (api : Api) (port : Nat) (cmd : String)
    (param : stParam) (s : State) :
    (¬ (param.argc = 0 ∨ (param.argc = 1 ∧ param.argv.getD 0 "" = "?")) →
      status_handler api port cmd param s = some (ATErrno.AT_PARAM_ERROR, s)) ∧
    (∀ r s2, status_handler api port cmd param s = some (r, s2) →
      (r = ATErrno.AT_OK ↔ (param.argc = 0 ∨ (param.argc = 1 ∧ param.argv.getD 0 "" = "?"))) ∧
      (r = ATErrno.AT_OK ∨ r = ATErrno.AT_PARAM_ERROR) ∧
      s2.custom_parameters = s.custom_parameters ∧ s2.flash = s.flash ∧ s2.timer = s.timer ∧
      s2.trace = s.trace) ∧
    ((param.argc = 0 ∨ (param.argc = 1 ∧ param.argv.getD 0 "" = "?")) →
      (0 ≤ api.nwm ∧ api.nwm < 3) → (api.nwm = 1 → 0 ≤ api.band ∧ api.band < 13) →
      ∃ ls, status_handler api port cmd param s =
        some (ATErrno.AT_OK, { s with serial := s.serial ++ ls })) := by
  by_cases hacc : (param.argc = 1 ∧ param.argv.getD 0 "" = "?") ∨ param.argc = 0
  · have hacc2 : param.argc = 0 ∨ (param.argc = 1 ∧ param.argv.getD 0 "" = "?") := hacc.symm
    refine ⟨fun hn => absurd hacc2 hn, ?_, ?_⟩
    · intro r s2 hres
      unfold status_handler at hres
      rw [if_pos hacc] at hres
      cases hls : status_lines api s.custom_parameters with
      | none => simp [hls] at hres
      | some ls =>
        simp only [hls, Option.some.injEq, Prod.mk.injEq] at hres
        obtain ⟨hr, hs⟩ := hres
        subst hr
        subst hs
        exact ⟨⟨fun _ => hacc2, fun _ => rfl⟩, Or.inl rfl, rfl, rfl, rfl, rfl⟩
    · intro _ hnwm hband
      obtain ⟨ls, hls⟩ := status_lines_defined api s.custom_parameters hnwm hband
      refine ⟨ls, ?_⟩
      unfold status_handler
      rw [if_pos hacc, hls]
  · have hacc2 : ¬ (param.argc = 0 ∨ (param.argc = 1 ∧ param.argv.getD 0 "" = "?")) :=
      fun h => hacc h.symm
    have hrej : status_handler api port cmd param s = some (ATErrno.AT_PARAM_ERROR, s) := by
      unfold status_handler
      rw [if_neg hacc]
    refine ⟨fun _ => hrej, ?_, fun h => absurd h hacc2⟩
    intro r s2 hres
    rw [hrej] at hres
    simp only [Option.some.injEq, Prod.mk.injEq] at hres
    obtain ⟨hr, hs⟩ := hres
    subst hr
    subst hs
    exact ⟨⟨fun h => absurd h (by decide), fun h => absurd h hacc2⟩, Or.inr rfl, rfl, rfl, rfl,
      rfl⟩

/-- C10 (amended) at the plain STATUS call (no argument) in LoRaWAN mode, region 4: accepted;
and at the argument 60: rejected with the state untouched. -/
theorem C10_status_handler_accepts_only_query_witness :
    (∃ ls, status_handler
        { hwModel := "rak3172", firmwareVer := "1.0", nwm := 1, njs := true, band := 4,
          njm := true, deui := [], appeui := [], appkey := [], appskey := [], nwkskey := [],
          daddr := [], pfreq := 0, psf := 0, pbw := 0, pcr := 0, ppl := 0, ptp := 0, pbr := 0,
          pfdev := 0 } 0 "STATUS" { argc := 0, argv := [] } (boot_state ⟨0xAA, 0⟩ ⟨0xAA, 0⟩) =
      some (ATErrno.AT_OK,
        { boot_state ⟨0xAA, 0⟩ ⟨0xAA, 0⟩ with
          serial := (boot_state ⟨0xAA, 0⟩ ⟨0xAA, 0⟩).serial ++ ls })) ∧
    status_handler
        { hwModel := "rak3172", firmwareVer := "1.0", nwm := 1, njs := true, band := 4,
          njm := true, deui := [], appeui := [], appkey := [], appskey := [], nwkskey := [],
          daddr := [], pfreq := 0, psf := 0, pbw := 0, pcr := 0, ppl := 0, ptp := 0, pbr := 0,
          pfdev := 0 } 0 "STATUS" { argc := 1, argv := ["60"] } (boot_state ⟨0xAA, 0⟩ ⟨0xAA, 0⟩) =
      some (ATErrno.AT_PARAM_ERROR, boot_state ⟨0xAA, 0⟩ ⟨0xAA, 0⟩) :=
  ⟨(C10_status_handler_accepts_only_query _ 0 "STATUS" { argc := 0, argv := [] }
      (boot_state ⟨0xAA, 0⟩ ⟨0xAA, 0⟩)).2.2 (Or.inl rfl) (by decide) (fun _ => by decide),
   (C10_status_handler_accepts_only_query _ 0 "STATUS" { argc := 1, argv := ["60"] }
      (boot_state ⟨0xAA, 0⟩ ⟨0xAA, 0⟩)).1 (by decide)⟩

end HeriSure

namespace HeriSure

/-! ## The STATUS handler: the LoRaWAN OTAA report -/

theorem hexDigit_eq (n : Nat) : hexDigit n = HEX_DIGITS.getD (n % 16) '0' := by
  unfold hexDigit
  have hlt : n % 16 < 16 := Nat.mod_lt _ (by norm_num)
  generalize n % 16 = m at hlt
  interval_cases m <;> rfl

theorem printf_02X_data (b : Nat) (h : b < 256) :
    (printf_02X b).data = [HEX_DIGITS.getD (b / 16) '0', HEX_DIGITS.getD (b % 16) '0'] := by
  unfold printf_02X
  rw [Nat.mod_eq_of_lt h, hexDigit_eq, hexDigit_eq, Nat.mod_mod,
    Nat.mod_eq_of_lt (show b / 16 < 16 by omega)]

theorem foldl_append_data (l : List String) (acc : String) :
    (l.foldl (fun r s => r ++ s) acc).data = acc.data ++ (l.map String.data).flatten := by
  induction l generalizing acc with
  | nil => simp
  | cons x xs ih => simp [ih, String.data_append, List.append_assoc]

theorem join_printf_02X_data (bs : List Nat) (h : ∀ b ∈ bs, b < 256) :
    (String.join (bs.map printf_02X)).data = hex_upper bs := by
  unfold String.join
  rw [foldl_append_data]
  induction bs with
  | nil => rfl
  | cons b bs ih =>
    have hb : b < 256 := h b (List.mem_cons_self _ _)
    have ht : ∀ x ∈ bs, x < 256 := fun x hx => h x (List.mem_cons_of_mem _ hx)
    have ih2 := ih ht
    simp only [List.map_cons, List.flatten_cons, printf_02X_data b hb] at ih2 ⊢
    simp only [String.data, List.nil_append] at ih2 ⊢
    rw [ih2]
    rfl

theorem range_map_getD (f : Nat → String) (bs rest : List Nat) :
    (List.range bs.length).map (fun i => f ((bs ++ rest).getD i 0)) = bs.map f := by
  induction bs with
  | nil => rfl
  | cons b bs ih =>
    rw [List.length_cons, List.range_succ_eq_map, List.map_cons, List.map_map, List.map_cons]
    congr 1

/-- The format arguments read the bytes a key getter delivered, in order. -/
theorem hex_bytes_eq (n : Nat) (bs rest : List Nat) (hn : bs.length = n)
    (h : ∀ b ∈ bs, b < 256) : hex_bytes n (bs ++ rest) = String.mk (hex_upper bs) := by
  subst hn
  unfold hex_bytes
  rw [range_map_getD printf_02X bs rest]
  have hd := join_printf_02X_data bs h
  cases hj : String.join (bs.map printf_02X) with
  | mk d =>
    rw [hj] at hd
    simp only at hd
    rw [hd]

theorem map_mod_256 (bs : List Nat) (h : ∀ b ∈ bs, b < 256) :
    bs.map (fun b => b % 256) = bs := by
  induction bs with
  | nil => rfl
  | cons b bs ih =>
    rw [List.map_cons, Nat.mod_eq_of_lt (h b (List.mem_cons_self _ _)),
      ih (fun x hx => h x (List.mem_cons_of_mem _ hx))]

theorem key_get_eq (src : List Nat) (len : Nat) (buf : List Nat) (hn : src.length = len)
    (h : ∀ b ∈ src, b < 256) : key_get src len buf = src ++ buf.drop len := by
  unfold key_get
  rw [List.take_of_length_le (le_of_eq hn), hn, map_mod_256 src h]

theorem hex_upper_length (bs : List Nat) : (hex_upper bs).length = 2 * bs.length := by
  induction bs with
  | nil => rfl
  | cons b bs ih =>
    show (hex_upper bs).length + 1 + 1 = 2 * (bs.length + 1)
    omega

theorem hex_upper_digits (bs : List Nat) (h : ∀ b ∈ bs, b < 256) :
    ∀ c ∈ hex_upper bs, c ∈ HEX_DIGITS := by
  induction bs with
  | nil => intro c hc; cases hc
  | cons b bs ih =>
    have hb : b < 256 := h b (List.mem_cons_self _ _)
    have hmem : ∀ m, m < 16 → HEX_DIGITS.getD m '0' ∈ HEX_DIGITS := by
      intro m hm
      interval_cases m <;> decide
    intro c hc
    have hc2 : c = HEX_DIGITS.getD (b / 16) '0' ∨ c = HEX_DIGITS.getD (b % 16) '0' ∨
        c ∈ hex_upper bs := by
      simpa [hex_upper] using hc
    rcases hc2 with h1 | h1 | h1
    · rw [h1]; exact hmem _ (by omega)
    · rw [h1]; exact hmem _ (Nat.mod_lt _ (by norm_num))
    · exact ih (fun x hx => h x (List.mem_cons_of_mem _ hx)) c h1

end HeriSure

namespace HeriSure

theorem table_at_getD (tbl : List String) (i : Int) (h0 : 0 ≤ i) (h1 : i < tbl.length) :
    table_at tbl i = some (tbl.getD i.toNat "") := by
  have hlt : i.toNat < tbl.length := by omega
  unfold table_at
  rw [if_pos h0, List.getD_eq_getElem?_getD, List.get?_eq_getElem?, List.getElem?_eq_getElem hlt]
  rfl

/-- The OTAA lines when the three getters deliver 8, 8 and 16 bytes. -/
theorem status_keys_otaa (api : Api) (hnjm : api.njm = true)
    (hdeui : api.deui.length = 8) (happeui : api.appeui.length = 8)
    (happkey : api.appkey.length = 16)
    (hb1 : ∀ b ∈ api.deui, b < 256) (hb2 : ∀ b ∈ api.appeui, b < 256)
    (hb3 : ∀ b ∈ api.appkey, b < 256) :
    status_keys api =
      ["OTAA mode", "DevEUI=" ++ String.mk (hex_upper api.deui),
       "AppEUI=" ++ String.mk (hex_upper api.appeui),
       "AppKey=" ++ String.mk (hex_upper api.appkey)] := by
  simp only [status_keys, hnjm, if_true, key_get_eq api.deui 8 _ hdeui hb1,
    key_get_eq api.appeui 8 _ happeui hb2, key_get_eq api.appkey 16 _ happkey hb3,
    hex_bytes_eq 8 _ _ hdeui hb1, hex_bytes_eq 8 _ _ happeui hb2,
    hex_bytes_eq 16 _ _ happkey hb3]

/-- C11: an accepted STATUS call in network mode 1 with the join-mode flag set,
joined, region r in 0..12 and key getters delivering 8, 8 and 16 bytes prints,
after the four header lines and the network mode line, exactly: Network joined,
Region: r in decimal, Region: followed by entry r of regions_list (EU868 for r =
4), OTAA mode, and the DevEUI=, AppEUI= and AppKey= lines whose payloads are the
key bytes in order as uppercase hexadecimal pairs without separators, 16, 16 and
32 digits long. -/
theorem C11_lorawan_otaa_report (api : Api) (port : Nat) (cmd : String) (param : stParam)
    (s : State) (hacc : status_accepts param) (hnwm : api.nwm = 1) (hnjm : api.njm = true)
    (hnjs : api.njs = true) (hband : 0 ≤ api.band ∧ api.band < 13)
    (hdeui : api.deui.length = 8) (happeui : api.appeui.length = 8)
    (happkey : api.appkey.length = 16)
    (hb1 : ∀ b ∈ api.deui, b < 256) (hb2 : ∀ b ∈ api.appeui, b < 256)
    (hb3 : ∀ b ∈ api.appkey, b < 256) :
    status_handler api port cmd param s =
      some (ATErrno.AT_OK,
        { s with
          serial := s.serial ++
            ["Device Status:", "Module: " ++ api.hwModel.toUpper,
             "Version: " ++ api.firmwareVer,
             "Send time: " ++ printf_d (to_int32 (s.custom_parameters.send_interval / 1000))
               ++ " s",
             "Network mode LoRaWAN", "Network joined", "Region: " ++ toString api.band,
             "Region: " ++ regions_list.getD api.band.toNat "", "OTAA mode",
             "DevEUI=" ++ String.mk (hex_upper api.deui),
             "AppEUI=" ++ String.mk (hex_upper api.appeui),
             "AppKey=" ++ String.mk (hex_upper api.appkey)] }) ∧
    (hex_upper api.deui).length = 16 ∧ (hex_upper api.appeui).length = 16 ∧
    (hex_upper api.appkey).length = 32 ∧
    (∀ c, c ∈ hex_upper api.deui ∨ c ∈ hex_upper api.appeui ∨ c ∈ hex_upper api.appkey →
      c ∈ HEX_DIGITS) ∧
    (api.band = 4 → regions_list.getD api.band.toNat "" = "EU868") := by
  refine ⟨?_, ?_, ?_, ?_, ?_, ?_⟩
  · have hcond : (param.argc = 1 ∧ param.argv.getD 0 "" = "?") ∨ param.argc = 0 := hacc.symm
    have hmode : table_at nwm_list api.nwm = some "LoRaWAN" := by rw [hnwm]; rfl
    have hregion := table_at_getD regions_list api.band hband.1
      (by have : regions_list.length = 13 := rfl
          rw [this]; exact_mod_cast hband.2)
    have hlines : status_lines api s.custom_parameters =
        some (["Device Status:", "Module: " ++ api.hwModel.toUpper,
             "Version: " ++ api.firmwareVer,
             "Send time: " ++ printf_d (to_int32 (s.custom_parameters.send_interval / 1000))
               ++ " s",
             "Network mode LoRaWAN", "Network joined", "Region: " ++ toString api.band,
             "Region: " ++ regions_list.getD api.band.toNat "", "OTAA mode",
             "DevEUI=" ++ String.mk (hex_upper api.deui),
             "AppEUI=" ++ String.mk (hex_upper api.appeui),
             "AppKey=" ++ String.mk (hex_upper api.appkey)]) := by
      unfold status_lines
      simp only [hmode, hregion, hnwm, if_true, hnjs,
        status_keys_otaa api hnjm hdeui happeui happkey hb1 hb2 hb3]
      rfl
    unfold status_handler
    rw [if_pos hcond, hlines]
  · rw [hex_upper_length, hdeui]
  · rw [hex_upper_length, happeui]
  · rw [hex_upper_length, happkey]
  · intro c hc
    rcases hc with h | h | h
    · exact hex_upper_digits _ hb1 c h
    · exact hex_upper_digits _ hb2 c h
    · exact hex_upper_digits _ hb3 c h
  · intro h4
    rw [h4]
    rfl

end HeriSure

namespace HeriSure

/-- C11 at region 4 with sample keys: the plain STATUS call prints these lines. -/
theorem C11_lorawan_otaa_report_witness :
    status_handler (otaa_api 4) 0 "STATUS" { argc := 0, argv := [] }
        (boot_state ⟨0xAA, 60000⟩ ⟨0xAA, 60000⟩) =
      some (ATErrno.AT_OK,
        { boot_state ⟨0xAA, 60000⟩ ⟨0xAA, 60000⟩ with
          serial :=
            ["Device Status:", "Module: RAK3172", "Version: RUI_4.1.0", "Send time: 60 s",
             "Network mode LoRaWAN", "Network joined", "Region: 4", "Region: EU868",
             "OTAA mode", "DevEUI=AC1F09FFFE057B3E", "AppEUI=0000000000000001",
             "AppKey=EFADFF29C77B4829ACF71E1A6E76F713"] }) := by
  have h := (C11_lorawan_otaa_report (otaa_api 4) 0 "STATUS" { argc := 0, argv := [] }
    (boot_state ⟨0xAA, 60000⟩ ⟨0xAA, 60000⟩) (Or.inl rfl) rfl rfl rfl (by decide) rfl rfl rfl
    (by decide) (by decide) (by decide)).1
  have hup : (otaa_api 4).hwModel.toUpper = "RAK3172" := by
    simp [otaa_api, String.toUpper, String.map_eq]
  rw [h, hup]
  decide

/-! ## The STATUS handler: the region table lookup -/

theorem table_at_out_of_range (tbl : List String) (i : Int)
    (h : ¬ (0 ≤ i ∧ i < tbl.length)) : table_at tbl i = none := by
  unfold table_at
  by_cases h0 : 0 ≤ i
  · rw [if_pos h0]
    exact List.get?_eq_none.mpr (by omega)
  · rw [if_neg h0]

/-- C12 (as stated, refuted): with region code 13, or -1, in LoRaWAN mode the
lookup in regions_list is a read outside the 13 entries and the handler has no
defined result; no label is substituted. -/
theorem C12_region_lookup_unguarded_counterexample :
    table_at regions_list 13 = none ∧ table_at regions_list (-1) = none ∧
    status_handler (otaa_api 13) 0 "STATUS" { argc := 0, argv := [] }
      (boot_state ⟨0xAA, 0⟩ ⟨0xAA, 0⟩) = none ∧
    status_handler (otaa_api (-1)) 0 "STATUS" { argc := 0, argv := [] }
      (boot_state ⟨0xAA, 0⟩ ⟨0xAA, 0⟩) = none := by
  decide

/-- C12 (amended): the region lookup of an accepted STATUS call in network mode 1
is unguarded. For a region code in 0..12 the read is inside regions_list and the
handler returns AT_OK with the line Region: followed by that entry among the
printed lines; for every other region code the read is outside the array and
the handler has no defined result. -/
theorem C12_region_lookup_defined_only_in_range (api : Api) (port : Nat) (cmd : String)
    (param : stParam) (s : State) (hacc : status_accepts param) (hnwm : api.nwm = 1) :
    ((0 ≤ api.band ∧ api.band < 13) →
      table_at regions_list api.band = some (regions_list.getD api.band.toNat "") ∧
      ∃ ls, status_handler api port cmd param s =
          some (ATErrno.AT_OK, { s with serial := s.serial ++ ls }) ∧
        ("Region: " ++ regions_list.getD api.band.toNat "") ∈ ls) ∧
    (¬ (0 ≤ api.band ∧ api.band < 13) →
      table_at regions_list api.band = none ∧ status_handler api port cmd param s = none) := by
  have hcond : (param.argc = 1 ∧ param.argv.getD 0 "" = "?") ∨ param.argc = 0 := hacc.symm
  have hlen : regions_list.length = 13 := rfl
  have hmode : table_at nwm_list api.nwm = some "LoRaWAN" := by rw [hnwm]; rfl
  constructor
  · intro hband
    have hregion := table_at_getD regions_list api.band hband.1
      (by rw [hlen]; exact_mod_cast hband.2)
    refine ⟨hregion, ?_⟩
    unfold status_handler status_lines
    simp only [if_pos hcond, hmode, hregion, hnwm, if_true]
    exact ⟨_, rfl, by simp⟩
  · intro hband
    have hregion := table_at_out_of_range regions_list api.band
      (by rw [hlen]; exact_mod_cast hband)
    refine ⟨hregion, ?_⟩
    have hmode1 : table_at nwm_list 1 = some "LoRaWAN" := rfl
    unfold status_handler status_lines
    simp only [if_pos hcond, hmode, hmode1, hregion, hnwm, if_true]

/-- C12 (amended) at region 12, the last entry: the line Region: LA915 is printed. -/
theorem C12_region_lookup_defined_only_in_range_witness :
    ∃ ls, status_handler (otaa_api 12) 0 "STATUS" { argc := 0, argv := [] }
        (boot_state ⟨0xAA, 0⟩ ⟨0xAA, 0⟩) =
        some (ATErrno.AT_OK,
          { boot_state ⟨0xAA, 0⟩ ⟨0xAA, 0⟩ with
            serial := (boot_state ⟨0xAA, 0⟩ ⟨0xAA, 0⟩).serial ++ ls }) ∧
      "Region: LA915" ∈ ls :=
  ((C12_region_lookup_defined_only_in_range (otaa_api 12) 0 "STATUS" { argc := 0, argv := [] }
    (boot_state ⟨0xAA, 0⟩ ⟨0xAA, 0⟩) (Or.inl rfl) rfl).1 (by decide)).2

end HeriSure

namespace HeriSure

/-! ## Further lemmas on the interval controller -/

/-- The state a SENDINT command leaves behind. -/
theorem interval_send_handler_snd (ok : Nat → Bool) (port : Nat) (cmd : String)
    (param : stParam) (s : State) :
    (interval_send_handler ok port cmd param s).2 =
      if param.argc = 1 ∧ param.argv.getD 0 "" = "?" then
        AT_PRINTF (cmd ++ "=" ++ printf_d (to_int32 (s.custom_parameters.send_interval / 1000))) s
      else if param.argc = 1 then (update_send_interval ok (param.argv.getD 0 "") s).2
      else s := by
  unfold interval_send_handler
  by_cases h1 : param.argc = 1 ∧ param.argv.getD 0 "" = "?"
  · rw [if_pos h1, if_pos h1]
  · rw [if_neg h1, if_neg h1]
    by_cases h2 : param.argc = 1
    · rw [if_pos h2, if_pos h2]
      by_cases h3 : (update_send_interval ok (param.argv.getD 0 "") s).1 ≠ ATErrno.AT_OK
      · rw [if_pos h3]
      · rw [if_neg h3]
    · rw [if_neg h2, if_neg h2]

/-- The state `update_send_interval` leaves behind. -/
theorem update_send_interval_snd (ok : Nat → Bool) (argv : String) (s : State) :
    (update_send_interval ok argv s).2 =
      if argv.data.all isdigit = true then
        apply_interval ok (min (decValue argv.data) ULONG_MAX % UINT32_MOD) s
      else s := by
  by_cases h : argv.data.all isdigit = true
  · rw [if_pos h, update_send_interval_digits ok argv s h]
  · rw [if_neg h, update_send_interval_reject ok argv s (by simpa using h)]

theorem apply_interval_timer (ok : Nat → Bool) (n : Nat) (s : State) :
    (apply_interval ok n s).timer =
      if (n * 1000) % UINT32_MOD ≠ 0 then some ((n * 1000) % UINT32_MOD) else none := by
  unfold apply_interval timer_stop timer_start
  generalize (n * 1000) % UINT32_MOD = m
  by_cases h0 : m = 0 <;> by_cases h1 : s.custom_parameters.send_interval = m <;>
    (try subst h0) <;> simp [*, save_at_setting_timer]

theorem save_at_setting_flash_calls (ok : Nat → Bool) (s : State) :
    (save_at_setting ok s).2.flash_calls = s.flash_calls + (if ok s.flash_calls then 1 else 2) := by
  unfold save_at_setting flash_set
  by_cases h : ok s.flash_calls <;> simp [h]

theorem save_at_setting_flash (ok : Nat → Bool) (s : State)
    (hw : ok s.flash_calls = true ∨ ok (s.flash_calls + 1) = true) :
    (save_at_setting ok s).2.flash = s.custom_parameters := by
  unfold save_at_setting flash_set
  by_cases h : ok s.flash_calls
  · simp [h]
  · have h2 : ok (s.flash_calls + 1) = true := by
      rcases hw with hw | hw
      · exact absurd hw h
      · exact hw
    simp [h, h2]

theorem apply_interval_flash_calls (ok : Nat → Bool) (n : Nat) (s : State) :
    s.flash_calls ≤ (apply_interval ok n s).flash_calls := by
  unfold apply_interval timer_stop timer_start
  generalize (n * 1000) % UINT32_MOD = m
  by_cases h0 : m = 0 <;> by_cases h1 : s.custom_parameters.send_interval = m <;>
    (try subst h0) <;> simp only [*, ne_eq, not_true_eq_false, not_false_eq_true, if_true,
      if_false, le_refl]
  · simp [save_at_setting_flash_calls]
  · simp [save_at_setting_flash_calls]

/-- With a write that succeeds at the first attempt or at the retry, the stored
interval follows the in-memory one through `apply_interval`. -/
theorem apply_interval_mirror (ok : Nat → Bool) (n : Nat) (s : State)
    (hw : ok s.flash_calls = true ∨ ok (s.flash_calls + 1) = true)
    (hm : s.flash.send_interval = s.custom_parameters.send_interval) :
    (apply_interval ok n s).flash.send_interval =
      (apply_interval ok n s).custom_parameters.send_interval := by
  rw [apply_interval_custom_parameters]
  unfold apply_interval timer_stop timer_start
  generalize (n * 1000) % UINT32_MOD = m
  by_cases h0 : m = 0 <;> by_cases h1 : s.custom_parameters.send_interval = m <;>
    (try subst h0) <;> simp only [*, ne_eq, not_true_eq_false, not_false_eq_true, if_true,
      if_false]
  · simp [save_at_setting_flash, hw]
  · simp [save_at_setting_flash, hw]

end HeriSure

namespace HeriSure

/-! ## Whole seconds -/

theorem run_sendint_nil (ok : Nat → Bool) (port : Nat) (cmd : String) (s : State) :
    run_sendint ok port cmd [] s = s := rfl

theorem run_sendint_cons (ok : Nat → Bool) (port : Nat) (cmd : String) (p : stParam)
    (ps : List stParam) (s : State) :
    run_sendint ok port cmd (p :: ps) s =
      run_sendint ok port cmd ps (interval_send_handler ok port cmd p s).2 := rfl

/-- Where the in-memory interval comes from after `get_at_setting`. -/
theorem get_at_setting_interval_cases (ok : Nat → Bool) (s : State) :
    (get_at_setting ok s).2.custom_parameters.send_interval =
        s.custom_parameters.send_interval ∨
    (get_at_setting ok s).2.custom_parameters.send_interval = 0 ∨
    (s.flash.valid_flag = 0xAA ∧
      (get_at_setting ok s).2.custom_parameters.send_interval = s.flash.send_interval) := by
  by_cases hr : ok s.flash_calls <;> by_cases hf : s.flash.valid_flag = 170 <;>
    simp [get_at_setting, flash_get, hr, hf, VALID_FLAG, save_at_setting_custom_parameters]

/-- One SENDINT command whose value, if any, fits keeps the interval a multiple
of 1000. -/
theorem interval_send_handler_whole_seconds (ok : Nat → Bool) (port : Nat) (cmd : String)
    (p : stParam) (s : State) (hs : s.custom_parameters.send_interval % 1000 = 0)
    (hfit : p.argc = 1 → (p.argv.getD 0 "").data.all isdigit = true →
      decValue (p.argv.getD 0 "").data * 1000 < 2 ^ 32) :
    (interval_send_handler ok port cmd p s).2.custom_parameters.send_interval % 1000 = 0 := by
  rw [interval_send_handler_snd]
  by_cases h1 : p.argc = 1 ∧ p.argv.getD 0 "" = "?"
  · rw [if_pos h1]
    exact hs
  · rw [if_neg h1]
    by_cases h2 : p.argc = 1
    · rw [if_pos h2]
      by_cases h3 : (p.argv.getD 0 "").data.all isdigit = true
      · rw [update_send_interval_small ok _ s h3 (hfit h2 h3)]
        exact Nat.mul_mod_left _ _
      · rw [update_send_interval_reject ok _ s (by simpa using h3)]
        exact hs
    · rw [if_neg h2]
      exact hs

/-- C13 (as stated, refuted): after boot and SENDINT=4294968 the interval is
4294968000 mod 2 ^ 32 = 704 ms; and a valid flash record holding 1500 ms is
loaded as it is. Neither is a multiple of 1000. -/
theorem C13_whole_seconds_counterexample :
    (run_sendint (fun _ => true) 0 "SENDINT" [{ argc := 1, argv := ["4294968"] }]
      (get_at_setting (fun _ => true)
        (boot_state ⟨0xAA, 0⟩ ⟨0xAA, 0⟩)).2).custom_parameters.send_interval % 1000 = 704 ∧
    (run_sendint (fun _ => true) 0 "SENDINT" []
      (get_at_setting (fun _ => true)
        (boot_state ⟨0xAA, 0⟩ ⟨0xAA, 1500⟩)).2).custom_parameters.send_interval % 1000 = 500 := by
  decide

/-- C13 (amended): starting with an in-memory interval that is a multiple of 1000
and a flash record that is invalid or holds a multiple of 1000, after
get_at_setting and any sequence of SENDINT commands whose digits-only arguments
have a value V with V * 1000 below 2 ^ 32, the in-memory interval is a multiple
of 1000. -/
theorem C13_whole_seconds_below_wrap (ok : Nat → Bool) (port : Nat) (cmd : String)
    (params : List stParam) (s : State)
    (hmem : s.custom_parameters.send_interval % 1000 = 0)
    (hflash : s.flash.valid_flag = 0xAA → s.flash.send_interval % 1000 = 0)
    (hfit : ∀ p ∈ params, p.argc = 1 → (p.argv.getD 0 "").data.all isdigit = true →
      decValue (p.argv.getD 0 "").data * 1000 < 2 ^ 32) :
    (run_sendint ok port cmd params
      (get_at_setting ok s).2).custom_parameters.send_interval % 1000 = 0 := by
  have hboot : (get_at_setting ok s).2.custom_parameters.send_interval % 1000 = 0 := by
    rcases get_at_setting_interval_cases ok s with h | h | ⟨hf, h⟩
    · rw [h]; exact hmem
    · rw [h]
    · rw [h]; exact hflash hf
  generalize (get_at_setting ok s).2 = t at hboot
  induction params generalizing t with
  | nil => exact hboot
  | cons p ps ih =>
    rw [run_sendint_cons]
    exact ih (fun q hq => hfit q (List.mem_cons_of_mem _ hq)) _
      (interval_send_handler_whole_seconds ok port cmd p t hboot
        (hfit p (List.mem_cons_self _ _)))

/-- C13 (amended) at a boot from the valid record with 60000 ms followed by a
set, a query, a rejected argument and a call with two arguments. -/
theorem C13_whole_seconds_below_wrap_witness :
    (run_sendint (fun _ => true) 0 "SENDINT"
      [{ argc := 1, argv := ["3600"] }, { argc := 1, argv := ["?"] },
       { argc := 1, argv := ["12a"] }, { argc := 2, argv := ["1", "2"] }]
      (get_at_setting (fun _ => true)
        (boot_state ⟨0xAA, 0⟩ ⟨0xAA, 60000⟩)).2).custom_parameters.send_interval % 1000 = 0 :=
  C13_whole_seconds_below_wrap (fun _ => true) 0 "SENDINT" _ (boot_state ⟨0xAA, 0⟩ ⟨0xAA, 60000⟩)
    (by decide) (by decide) (by decide)

end HeriSure

namespace HeriSure

/-! ## Values at and beyond the 32-bit range -/

/-- A digits-only value of 2 ^ 32 or more is accepted as `ULONG_MAX`. -/
theorem update_send_interval_saturates (ok : Nat → Bool) (S : String) (s : State)
    (hall : S.data.all isdigit = true) (hbig : 2 ^ 32 ≤ decValue S.data) :
    (update_send_interval ok S s).1 = ATErrno.AT_OK ∧
    (update_send_interval ok S s).2.custom_parameters.send_interval = 4294966296 := by
  rw [update_send_interval_digits ok S s hall]
  refine ⟨rfl, ?_⟩
  simp only [apply_interval_custom_parameters]
  unfold ULONG_MAX UINT32_MOD
  rw [Nat.min_eq_right (by omega)]
  norm_num

/-- C14 (the strings 4294967296 and 99999999999): update_send_interval accepts
a digits-only value beyond the 32-bit range from every prior state, returns AT_OK
and stores 4294967295 * 1000 mod 2 ^ 32 = 4294966296 ms, where the claim asks for
AT_PARAM_ERROR with nothing applied. -/
theorem C14_out_of_range_value_is_accepted (ok : Nat → Bool) (s : State) :
    (update_send_interval ok "4294967296" s).1 = ATErrno.AT_OK ∧
    (update_send_interval ok "4294967296" s).2.custom_parameters.send_interval = 4294966296 ∧
    (update_send_interval ok "99999999999" s).1 = ATErrno.AT_OK ∧
    (update_send_interval ok "99999999999" s).2.custom_parameters.send_interval = 4294966296 ∧
    (update_send_interval (fun _ => true) "4294967296"
      (boot_state ⟨0xAA, 60000⟩ ⟨0xAA, 60000⟩)).2.timer = some 4294966296 := by
  have h1 := update_send_interval_saturates ok "4294967296" s (by decide) (by decide)
  have h2 := update_send_interval_saturates ok "99999999999" s (by decide) (by decide)
  exact ⟨h1.1, h1.2, h2.1, h2.2, by decide⟩

/-- C15: a non-empty digits-only string with value V below 2 ^ 32 is accepted and
the stored interval is V * 1000 mod 2 ^ 32; the value 536870912 stores 0. -/
theorem C15_interval_wraps_modulo_two_pow_32 (ok : Nat → Bool) (S : String) (s : State)
    (_hne : S.data ≠ []) (hdig : ∀ c ∈ S.data, isdigit c = true)
    (hV : decValue S.data < 2 ^ 32) :
    (update_send_interval ok S s).1 = ATErrno.AT_OK ∧
    (update_send_interval ok S s).2.custom_parameters.send_interval =
      (decValue S.data * 1000) % 2 ^ 32 ∧
    (update_send_interval ok "536870912" s).1 = ATErrno.AT_OK ∧
    (update_send_interval ok "536870912" s).2.custom_parameters.send_interval = 0 := by
  have hall := all_isdigit_of_forall _ hdig
  have key : ∀ T : String, T.data.all isdigit = true → decValue T.data < 2 ^ 32 →
      (update_send_interval ok T s).1 = ATErrno.AT_OK ∧
      (update_send_interval ok T s).2.custom_parameters.send_interval =
        (decValue T.data * 1000) % 2 ^ 32 := by
    intro T hT hlt
    rw [update_send_interval_digits ok T s hT]
    refine ⟨rfl, ?_⟩
    simp only [apply_interval_custom_parameters]
    unfold ULONG_MAX UINT32_MOD
    rw [Nat.min_eq_left (by omega), Nat.mod_eq_of_lt hlt]
  have h5 := key "536870912" (by decide) (by decide)
  have hval : decValue ("536870912" : String).data = 536870912 := by decide
  refine ⟨(key S hall hV).1, (key S hall hV).2, h5.1, ?_⟩
  rw [h5.2, hval]
  norm_num

/-- C15 at the value 4294968, whose product with 1000 wraps to 704. -/
theorem C15_interval_wraps_modulo_two_pow_32_witness :
    (update_send_interval (fun _ => true) "4294968"
      (boot_state ⟨0xAA, 0⟩ ⟨0xAA, 0⟩)).2.custom_parameters.send_interval = 704 := by
  have h := (C15_interval_wraps_modulo_two_pow_32 (fun _ => true) "4294968"
    (boot_state ⟨0xAA, 0⟩ ⟨0xAA, 0⟩) (by decide) (by decide) (by decide)).2.1
  rw [h]
  decide

/-! ## Rejection leaves everything alone -/

/-- C18: a string with a character that is not a decimal digit makes
update_send_interval return AT_PARAM_ERROR with the very state it was given, so
configuration, timer, flash and the call trace (no timer call, no flash write)
are untouched; the SENDINT handler called with that single argument, unless it
is the query ?, does the same. -/
theorem C18_non_digit_rejected_without_effect (ok : Nat → Bool) (port : Nat) (cmd : String)
    (param : stParam) (s : State) (harg : param.argc = 1)
    (hbad : ∃ c ∈ (param.argv.getD 0 "").data, isdigit c = false) :
    update_send_interval ok (param.argv.getD 0 "") s = (ATErrno.AT_PARAM_ERROR, s) ∧
    events_since s (update_send_interval ok (param.argv.getD 0 "") s).2 = [] ∧
    (param.argv.getD 0 "" ≠ "?" →
      interval_send_handler ok port cmd param s = (ATErrno.AT_PARAM_ERROR, s)) := by
  have hnot : (param.argv.getD 0 "").data.all isdigit = false := by
    obtain ⟨c, hc, hd⟩ := hbad
    rw [List.all_eq_false]
    exact ⟨c, hc, by rw [hd]; decide⟩
  have hrej := update_send_interval_reject ok (param.argv.getD 0 "") s hnot
  refine ⟨hrej, ?_, ?_⟩
  · rw [hrej]
    exact events_since_append s s [] (List.append_nil _).symm
  · intro hq
    unfold interval_send_handler
    rw [if_neg (fun h => hq h.2), if_pos harg, hrej]
    rfl

/-- C18 at the argument 12a from a state with a running timer. -/
theorem C18_non_digit_rejected_without_effect_witness :
    interval_send_handler (fun _ => true) 0 "SENDINT" { argc := 1, argv := ["12a"] }
        (update_send_interval (fun _ => true) "60" (boot_state ⟨0xAA, 0⟩ ⟨0xAA, 0⟩)).2 =
      (ATErrno.AT_PARAM_ERROR,
       (update_send_interval (fun _ => true) "60" (boot_state ⟨0xAA, 0⟩ ⟨0xAA, 0⟩)).2) :=
  (C18_non_digit_rejected_without_effect (fun _ => true) 0 "SENDINT"
    { argc := 1, argv := ["12a"] }
    (update_send_interval (fun _ => true) "60" (boot_state ⟨0xAA, 0⟩ ⟨0xAA, 0⟩)).2 rfl
    ⟨'a', by decide, by decide⟩).2.2 (by decide)

end HeriSure

namespace HeriSure

/-! ## Timer control -/

/-- The calls of `apply_interval` after the state it was given. -/
theorem apply_interval_events (ok : Nat → Bool) (n : Nat) (s : State) :
    events_since s (apply_interval ok n s) =
      [Event.timer_stop] ++
        (if (n * 1000) % UINT32_MOD ≠ 0 then [Event.timer_start ((n * 1000) % UINT32_MOD)]
         else []) ++
        (if s.custom_parameters.send_interval ≠ (n * 1000) % UINT32_MOD then
           (if ok s.flash_calls then
              [Event.flash_set ⟨s.custom_parameters.valid_flag, (n * 1000) % UINT32_MOD⟩ true]
            else
              [Event.flash_set ⟨s.custom_parameters.valid_flag, (n * 1000) % UINT32_MOD⟩ false,
               Event.flash_set ⟨s.custom_parameters.valid_flag, (n * 1000) % UINT32_MOD⟩
                 (ok (s.flash_calls + 1))])
         else []) :=
  events_since_append s _ _ (apply_interval_trace ok n s)

/-- C19 (as stated, refuted): SENDINT value 60 given twice. The second call finds
the interval unchanged (60000 ms before and after, no flash write) and still
stops the timer and starts it again with period 60000. -/
theorem C19_unchanged_value_restarts_timer_counterexample :
    (update_send_interval (fun _ => true) "60"
      (boot_state ⟨0xAA, 0⟩ ⟨0xAA, 0⟩)).2.custom_parameters.send_interval = 60000 ∧
    (update_send_interval (fun _ => true) "60"
      (update_send_interval (fun _ => true) "60"
        (boot_state ⟨0xAA, 0⟩ ⟨0xAA, 0⟩)).2).2.custom_parameters.send_interval = 60000 ∧
    events_since
      (update_send_interval (fun _ => true) "60" (boot_state ⟨0xAA, 0⟩ ⟨0xAA, 0⟩)).2
      (update_send_interval (fun _ => true) "60"
        (update_send_interval (fun _ => true) "60" (boot_state ⟨0xAA, 0⟩ ⟨0xAA, 0⟩)).2).2 =
      [Event.timer_stop, Event.timer_start 60000] := by
  decide

/-- C19 (amended): whenever update_send_interval returns AT_OK, whether the value
changed or not, the timer calls of the call are a stop followed by a start with
the new interval as period exactly when the new interval is not 0, the timer
ends up running with that period or stopped accordingly, and the only other
calls are the flash writes, issued after the timer calls. -/
theorem C19_timer_restarted_on_every_accepted_update (ok : Nat → Bool) (argv : String)
    (s : State) (h : (update_send_interval ok argv s).1 = ATErrno.AT_OK) :
    timer_calls (events_since s (update_send_interval ok argv s).2) =
      Event.timer_stop ::
        (if (update_send_interval ok argv s).2.custom_parameters.send_interval ≠ 0 then
           [Event.timer_start (update_send_interval ok argv s).2.custom_parameters.send_interval]
         else []) ∧
    (update_send_interval ok argv s).2.timer =
      (if (update_send_interval ok argv s).2.custom_parameters.send_interval ≠ 0 then
         some (update_send_interval ok argv s).2.custom_parameters.send_interval
       else none) ∧
    events_since s (update_send_interval ok argv s).2 =
      timer_calls (events_since s (update_send_interval ok argv s).2) ++
        flash_writes (events_since s (update_send_interval ok argv s).2) := by
  have hall := digits_of_update_ok ok argv s h
  rw [update_send_interval_digits ok argv s hall]
  simp only [apply_interval_custom_parameters, apply_interval_timer, apply_interval_events]
  generalize (min (decValue argv.data) ULONG_MAX % UINT32_MOD * 1000) % UINT32_MOD = m
  by_cases h0 : m = 0 <;> by_cases h1 : s.custom_parameters.send_interval = m <;>
    by_cases h2 : ok s.flash_calls <;> (try subst h0) <;>
    simp [timer_calls, flash_writes, *]

/-- C19 (amended) at the value 0 given to a state with interval 0: no change, and
the timer is stopped once more. -/
theorem C19_timer_restarted_on_every_accepted_update_witness :
    timer_calls (events_since (boot_state ⟨0xAA, 0⟩ ⟨0xAA, 0⟩)
      (update_send_interval (fun _ => true) "0" (boot_state ⟨0xAA, 0⟩ ⟨0xAA, 0⟩)).2) =
      [Event.timer_stop] := by
  have h := (C19_timer_restarted_on_every_accepted_update (fun _ => true) "0"
    (boot_state ⟨0xAA, 0⟩ ⟨0xAA, 0⟩) (by decide)).1
  rw [h]
  decide

/-! ## Flash mirrors memory -/

/-- After a successful read, and with the default record reaching flash when it
is written, flash and memory agree on the interval. -/
theorem get_at_setting_mirror (ok : Nat → Bool) (s : State)
    (hread : ok s.flash_calls = true)
    (hwrite : ok (s.flash_calls + 1) = true ∨ ok (s.flash_calls + 2) = true) :
    (get_at_setting ok s).2.flash.send_interval =
      (get_at_setting ok s).2.custom_parameters.send_interval ∧
    s.flash_calls < (get_at_setting ok s).2.flash_calls := by
  by_cases hf : s.flash.valid_flag = 170
  · simp [get_at_setting, flash_get, hread, hf, VALID_FLAG]
  · by_cases h1 : ok (s.flash_calls + 1)
    · simp [get_at_setting, flash_get, save_at_setting, flash_set, hread, hf, VALID_FLAG, h1]
      omega
    · have h2 : ok (s.flash_calls + 2) = true := by
        rcases hwrite with hw | hw
        · exact absurd hw h1
        · exact hw
      simp [get_at_setting, flash_get, save_at_setting, flash_set, hread, hf, VALID_FLAG, h1, h2]
      omega

/-- One SENDINT command keeps flash and memory in agreement when its save, if
any, succeeds at the first attempt or at the retry. -/
theorem interval_send_handler_mirror (ok : Nat → Bool) (port : Nat) (cmd : String)
    (p : stParam) (s : State)
    (hw : ok s.flash_calls = true ∨ ok (s.flash_calls + 1) = true)
    (hm : s.flash.send_interval = s.custom_parameters.send_interval) :
    (interval_send_handler ok port cmd p s).2.flash.send_interval =
      (interval_send_handler ok port cmd p s).2.custom_parameters.send_interval ∧
    s.flash_calls ≤ (interval_send_handler ok port cmd p s).2.flash_calls := by
  rw [interval_send_handler_snd]
  by_cases h1 : p.argc = 1 ∧ p.argv.getD 0 "" = "?"
  · rw [if_pos h1]
    exact ⟨hm, le_refl _⟩
  · rw [if_neg h1]
    by_cases h2 : p.argc = 1
    · rw [if_pos h2, update_send_interval_snd]
      by_cases h3 : (p.argv.getD 0 "").data.all isdigit = true
      · rw [if_pos h3]
        exact ⟨apply_interval_mirror ok _ s hw hm, apply_interval_flash_calls ok _ s⟩
      · rw [if_neg h3]
        exact ⟨hm, le_refl _⟩
    · rw [if_neg h2]
      exact ⟨hm, le_refl _⟩

theorem run_sendint_mirror (ok : Nat → Bool) (port : Nat) (cmd : String) (N : Nat)
    (hwrite : ∀ n, N ≤ n → ok n = true ∨ ok (n + 1) = true) (params : List stParam) :
    ∀ t : State, N ≤ t.flash_calls →
      t.flash.send_interval = t.custom_parameters.send_interval →
      (run_sendint ok port cmd params t).flash.send_interval =
        (run_sendint ok port cmd params t).custom_parameters.send_interval := by
  induction params with
  | nil => intro t _ hm; exact hm
  | cons p ps ih =>
    intro t hN hm
    rw [run_sendint_cons]
    have hstep := interval_send_handler_mirror ok port cmd p t (hwrite _ hN) hm
    exact ih _ (le_trans hN hstep.2) hstep.1

end HeriSure

namespace HeriSure

/-- C20 (as stated, refuted): the flash read succeeds on a flash without a valid
record (flag 0, stray interval 123456) and the two writes of the default record
fail. Memory then holds interval 0 while the flash keeps 123456, and SENDINT
value 0 followed by a query, which issue no flash write at all, leave it so. -/
theorem C20_mirror_broken_by_failed_first_boot_write_counterexample :
    (get_at_setting (fun n => n == 0) (boot_state ⟨0, 0⟩ ⟨0, 123456⟩)).2.trace =
      [Event.flash_get true, Event.flash_set ⟨0xAA, 0⟩ false, Event.flash_set ⟨0xAA, 0⟩ false] ∧
    flash_writes (events_since
      (get_at_setting (fun n => n == 0) (boot_state ⟨0, 0⟩ ⟨0, 123456⟩)).2
      (run_sendint (fun n => n == 0) 0 "SENDINT"
        [{ argc := 1, argv := ["0"] }, { argc := 1, argv := ["?"] }]
        (get_at_setting (fun n => n == 0) (boot_state ⟨0, 0⟩ ⟨0, 123456⟩)).2)) = [] ∧
    (run_sendint (fun n => n == 0) 0 "SENDINT"
      [{ argc := 1, argv := ["0"] }, { argc := 1, argv := ["?"] }]
      (get_at_setting (fun n => n == 0)
        (boot_state ⟨0, 0⟩ ⟨0, 123456⟩)).2).flash.send_interval = 123456 ∧
    (run_sendint (fun n => n == 0) 0 "SENDINT"
      [{ argc := 1, argv := ["0"] }, { argc := 1, argv := ["?"] }]
      (get_at_setting (fun n => n == 0)
        (boot_state ⟨0, 0⟩ ⟨0, 123456⟩)).2).custom_parameters.send_interval = 0 := by
  decide

/-- C20 (amended): after a get_at_setting call whose flash read succeeded, and
after any sequence of SENDINT commands, the interval stored in flash equals the
in-memory interval, provided every flash write after the read succeeds at the
first attempt or at the retry, the write of the default record inside
get_at_setting included. -/
theorem C20_flash_mirrors_memory_when_saves_land (ok : Nat → Bool) (port : Nat) (cmd : String)
    (params : List stParam) (s : State) (hread : ok s.flash_calls = true)
    (hwrite : ∀ n, s.flash_calls < n → ok n = true ∨ ok (n + 1) = true) :
    (run_sendint ok port cmd params (get_at_setting ok s).2).flash.send_interval =
      (run_sendint ok port cmd params (get_at_setting ok s).2).custom_parameters.send_interval := by
  have hboot := get_at_setting_mirror ok s hread (hwrite (s.flash_calls + 1) (by omega))
  exact run_sendint_mirror ok port cmd (s.flash_calls + 1)
    (fun n hn => hwrite n (by omega)) params _ (by omega) hboot.1

/-- C20 (amended) at a first boot whose first write fails and whose retry
succeeds, followed by a set whose first write fails again, a rejected argument
and a query: flash and memory both hold 60000 ms. -/
theorem C20_flash_mirrors_memory_when_saves_land_witness :
    (run_sendint (fun n => n % 2 == 0) 0 "SENDINT"
      [{ argc := 1, argv := ["60"] }, { argc := 1, argv := ["x"] }, { argc := 1, argv := ["?"] }]
      (get_at_setting (fun n => n % 2 == 0)
        (boot_state ⟨0, 0⟩ ⟨0, 123456⟩)).2).flash.send_interval = 60000 := by
  have h := C20_flash_mirrors_memory_when_saves_land (fun n => n % 2 == 0) 0 "SENDINT"
    [{ argc := 1, argv := ["60"] }, { argc := 1, argv := ["x"] }, { argc := 1, argv := ["?"] }]
    (boot_state ⟨0, 0⟩ ⟨0, 123456⟩) (by decide)
    (by
      intro n _
      have h2 : n % 2 = 0 ∨ n % 2 = 1 := by omega
      rcases h2 with h2 | h2
      · left; simp [h2]
      · right
        have h3 : (n + 1) % 2 = 0 := by omega
        simp [h3])
  rw [h]
  decide

end HeriSure

namespace HeriSure

/-! ## The simulated sensor: one period, checked call by call -/

theorem log2_bisect_zero (n : Nat) : log2_bisect 0 n = 0 := rfl

theorem log2_bisect_succ (w n : Nat) :
    log2_bisect (w + 1) n =
      if 2 ^ 2 ^ w ≤ n then 2 ^ w + log2_bisect w (n / 2 ^ 2 ^ w) else log2_bisect w n := rfl

/-- The bisection finds the leading binary digit of every positive number within
its width. -/
theorem log2_bisect_spec : ∀ w n, 0 < n → n < 2 ^ 2 ^ w →
    2 ^ log2_bisect w n ≤ n ∧ n < 2 ^ (log2_bisect w n + 1) ∧ log2_bisect w n < 2 ^ w := by
  intro w
  induction w with
  | zero =>
    intro n h0 h1
    have hn : n = 1 := by
      have : n < 2 := by simpa using h1
      omega
    subst hn
    rw [log2_bisect_zero]
    norm_num
  | succ w ih =>
    intro n h0 h1
    have hB : 0 < 2 ^ 2 ^ w := Nat.pow_pos (by norm_num)
    have hsq : 2 ^ 2 ^ (w + 1) = 2 ^ 2 ^ w * 2 ^ 2 ^ w := by
      rw [← pow_add, pow_succ]
      congr 1
      omega
    rw [log2_bisect_succ]
    by_cases hc : 2 ^ 2 ^ w ≤ n
    · rw [if_pos hc]
      have hm0 : 0 < n / 2 ^ 2 ^ w := Nat.div_pos hc hB
      have hm1 : n / 2 ^ 2 ^ w < 2 ^ 2 ^ w := by
        rw [Nat.div_lt_iff_lt_mul hB]
        rw [hsq] at h1
        exact h1
      obtain ⟨hl, hu, hw⟩ := ih _ hm0 hm1
      refine ⟨?_, ?_, ?_⟩
      · calc 2 ^ (2 ^ w + log2_bisect w (n / 2 ^ 2 ^ w))
            = 2 ^ 2 ^ w * 2 ^ log2_bisect w (n / 2 ^ 2 ^ w) := pow_add _ _ _
          _ ≤ 2 ^ 2 ^ w * (n / 2 ^ 2 ^ w) := Nat.mul_le_mul_left _ hl
          _ ≤ n := Nat.mul_div_le _ _
      · have h3 : n < 2 ^ 2 ^ w * (n / 2 ^ 2 ^ w + 1) := Nat.lt_mul_div_succ n hB
        calc n < 2 ^ 2 ^ w * (n / 2 ^ 2 ^ w + 1) := h3
          _ ≤ 2 ^ 2 ^ w * 2 ^ (log2_bisect w (n / 2 ^ 2 ^ w) + 1) :=
              Nat.mul_le_mul_left _ hu
          _ = 2 ^ (2 ^ w + log2_bisect w (n / 2 ^ 2 ^ w) + 1) := by
              rw [← pow_add]
              congr 1
      · rw [pow_succ]
        omega
    · rw [if_neg hc]
      obtain ⟨hl, hu, hw⟩ := ih n h0 (Nat.lt_of_not_le hc)
      refine ⟨hl, hu, ?_⟩
      rw [pow_succ]
      omega

theorem reads_succ (f : SimChannel → ℚ × SimChannel) (n : Nat) (st : SimChannel) :
    reads f (n + 1) st = reads f n (f st).2 := rfl

theorem reads_succ_apply (f : SimChannel → ℚ × SimChannel) (n : Nat) (st : SimChannel) :
    reads f (n + 1) st = (f (reads f n st)).2 := by
  induction n generalizing st with
  | zero => rfl
  | succ n ih => rw [reads_succ, ih, reads_succ]

theorem reads_add (f : SimChannel → ℚ × SimChannel) (a b : Nat) (st : SimChannel) :
    reads f (a + b) st = reads f a (reads f b st) := by
  induction b generalizing st with
  | zero => rfl
  | succ b ih => rw [← Nat.add_assoc, reads_succ, ih, reads_succ]

/-- Once the statics are back at their initial value the calls repeat. -/
theorem reads_mod (f : SimChannel → ℚ × SimChannel) (P : Nat) (init : SimChannel)
    (h : reads f P init = init) (n : Nat) : reads f n init = reads f (n % P) init := by
  have hq : ∀ q k, reads f (k + P * q) init = reads f k init := by
    intro q
    induction q with
    | zero => intro k; rfl
    | succ q ih =>
      intro k
      rw [Nat.mul_succ, ← Nat.add_assoc, reads_add, h, ih]
  have hn := hq (n / P) (n % P)
  rw [Nat.mod_add_div] at hn
  exact hn

theorem check_run_sound (f : SimChannel → ℚ × SimChannel)
    (P : Nat → SimChannel → SimChannel → Bool) :
    ∀ n i st st2, check_run f P n i st = some st2 →
      reads f n st = st2 ∧
      ∀ k, k < n → P (i + k) (reads f k st) (reads f (k + 1) st) = true := by
  intro n
  induction n with
  | zero =>
    intro i st st2 h
    have h2 : some st = some st2 := h
    exact ⟨Option.some.inj h2, fun k hk => absurd hk (Nat.not_lt_zero k)⟩
  | succ n ih =>
    intro i st st2 h
    have h2 : (if P i st (f st).2 then check_run f P n (i + 1) (f st).2 else none) = some st2 := h
    by_cases hP : P i st (f st).2 = true
    · rw [if_pos hP] at h2
      obtain ⟨hr, hk⟩ := ih (i + 1) (f st).2 st2 h2
      refine ⟨hr, ?_⟩
      intro k hlt
      cases k with
      | zero => exact hP
      | succ k =>
        have h3 := hk k (Nat.lt_of_succ_lt_succ hlt)
        have hidx : i + 1 + k = i + (k + 1) := by omega
        rw [hidx] at h3
        exact h3
    · rw [if_neg hP] at h2
      cases h2

/-- Two stretches of calls, the second starting where the first ended, make one. -/
theorem check_run_trans (f : SimChannel → ℚ × SimChannel)
    (P : Nat → SimChannel → SimChannel → Bool) (a b i : Nat) (st st2 st3 : SimChannel)
    (h1 : check_run f P a i st = some st2) (h2 : check_run f P b (i + a) st2 = some st3) :
    check_run f P (a + b) i st = some st3 := by
  induction a generalizing i st with
  | zero =>
    have h : some st = some st2 := h1
    rw [Option.some.inj h, Nat.zero_add]
    exact h2
  | succ a ih =>
    have h : (if P i st (f st).2 then check_run f P a (i + 1) (f st).2 else none) = some st2 := h1
    by_cases hP : P i st (f st).2 = true
    · rw [if_pos hP] at h
      have hidx : i + 1 + a = i + (a + 1) := by omega
      have h3 := ih (i + 1) (f st).2 h (by rw [hidx]; exact h2)
      have hab : a + 1 + b = (a + b) + 1 := by omega
      rw [hab]
      show (if P i st (f st).2 then check_run f P (a + b) (i + 1) (f st).2 else none) = some st3
      rw [if_pos hP]
      exact h3
    · rw [if_neg hP] at h
      cases h

/-- A checked period gives the shape of every call. -/
theorem wave_of_check (f : SimChannel → ℚ × SimChannel) (init : SimChannel)
    (lo hi step err : ℚ) (T L : Nat)
    (hcheck : check_run f
      (fun j a b => decide (wave_step_ok lo hi step err T L j a b)) (L + 1) 0 init = some init)
    (n : Nat) :
    wave_step_ok lo hi step err T L (n % (L + 1)) (reads f n init) (reads f (n + 1) init) := by
  obtain ⟨hperiod, hall⟩ := check_run_sound f _ (L + 1) 0 init init hcheck
  have hk : n % (L + 1) < L + 1 := Nat.mod_lt _ (Nat.succ_pos L)
  have h := hall (n % (L + 1)) hk
  rw [Nat.zero_add] at h
  rw [reads_succ_apply f n init, reads_mod f (L + 1) init hperiod n, ← reads_succ_apply]
  exact of_decide_eq_true h

theorem fake_read_fst (MIN MAX STEP : ℚ) (st : SimChannel) :
    (fake_read MIN MAX STEP st).1 = (fake_read MIN MAX STEP st).2.temp := by
  unfold fake_read
  split_ifs <;> rfl

theorem temperature_init_eq :
    temperature_init = { temp := 13316915 / 1048576, direction := 1 } := by
  decide!

theorem humidity_init_eq : humidity_init = { temp := 91 / 2, direction := 1 } := by
  decide!

/-- The rounding on samples: a tie goes to the even neighbour, a value on the grid
stays, the sign is kept, and the literals 12.7 and 0.06 become the doubles that
IEEE arithmetic gives them. -/
theorem round_binary_samples :
    to_float 16777217 = 16777216 ∧ to_float 16777219 = 16777220 ∧
    to_float (1 + 1 / 2 ^ 24) = 1 ∧ to_float (1 + 3 / 2 ^ 24) = 1 + 1 / 2 ^ 22 ∧
    to_float (3 / 2 ^ 30) = 3 / 2 ^ 30 ∧ to_float (-(127 / 10)) = -(13316915 / 2 ^ 20) ∧
    to_double (127 / 10) = 3574732204225331 / 2 ^ 48 ∧
    to_double (3 / 50) = 1080863910568919 / 2 ^ 54 := by
  decide!

theorem to_float_bounds :
    to_float TEMPERATURE_MIN = 13316915 / 2 ^ 20 ∧ to_float TEMPERATURE_MAX = 9751757 / 2 ^ 18 ∧
    to_float HUMIDITY_MIN = 91 / 2 ∧ to_float HUMIDITY_MAX = 5255987 / 2 ^ 16 := by
  decide!

theorem temperature_chunk_0 :
    check_run temperature_Read temperature_test 64 0 { temp := 13316915 / 1048576, direction := 1 } =
      some { temp := 8671733 / 524288, direction := 1 } := by
  decide!

theorem temperature_chunk_1 :
    check_run temperature_Read temperature_test 64 64 { temp := 8671733 / 524288, direction := 1 } =
      some { temp := 10684981 / 524288, direction := 1 } := by
  decide!

theorem temperature_chunk_2 :
    check_run temperature_Read temperature_test 64 128 { temp := 10684981 / 524288, direction := 1 } =
      some { temp := 12698229 / 524288, direction := 1 } := by
  decide!

theorem temperature_chunk_3 :
    check_run temperature_Read temperature_test 64 192 { temp := 12698229 / 524288, direction := 1 } =
      some { temp := 14711477 / 524288, direction := 1 } := by
  decide!

theorem temperature_chunk_4 :
    check_run temperature_Read temperature_test 64 256 { temp := 14711477 / 524288, direction := 1 } =
      some { temp := 16724725 / 524288, direction := 1 } := by
  decide!

theorem temperature_chunk_5 :
    check_run temperature_Read temperature_test 64 320 { temp := 16724725 / 524288, direction := 1 } =
      some { temp := 4684509 / 131072, direction := 1 } := by
  decide!

theorem temperature_chunk_6 :
    check_run temperature_Read temperature_test 64 384 { temp := 4684509 / 131072, direction := 1 } =
      some { temp := 4569163 / 131072, direction := 0 } := by
  decide!

theorem temperature_chunk_7 :
    check_run temperature_Read temperature_test 64 448 { temp := 4569163 / 131072, direction := 0 } =
      some { temp := 16263357 / 524288, direction := 0 } := by
  decide!

theorem temperature_chunk_8 :
    check_run temperature_Read temperature_test 64 512 { temp := 16263357 / 524288, direction := 0 } =
      some { temp := 14250109 / 524288, direction := 0 } := by
  decide!

theorem temperature_chunk_9 :
    check_run temperature_Read temperature_test 64 576 { temp := 14250109 / 524288, direction := 0 } =
      some { temp := 12236861 / 524288, direction := 0 } := by
  decide!

theorem temperature_chunk_10 :
    check_run temperature_Read temperature_test 64 640 { temp := 12236861 / 524288, direction := 0 } =
      some { temp := 10223613 / 524288, direction := 0 } := by
  decide!

theorem temperature_chunk_11 :
    check_run temperature_Read temperature_test 64 704 { temp := 10223613 / 524288, direction := 0 } =
      some { temp := 4105181 / 262144, direction := 0 } := by
  decide!

theorem temperature_chunk_12 :
    check_run temperature_Read temperature_test 50 768 { temp := 4105181 / 262144, direction := 0 } =
      some { temp := 13316915 / 1048576, direction := 1 } := by
  decide!

theorem humidity_chunk_0 :
    check_run humidity_Read humidity_test 54 0 { temp := 91 / 2, direction := 1 } =
      some { temp := 5255987 / 65536, direction := 0 } := by
  decide!

theorem humidity_chunk_1 :
    check_run humidity_Read humidity_test 54 54 { temp := 5255987 / 65536, direction := 0 } =
      some { temp := 91 / 2, direction := 1 } := by
  decide!

/-- The calls of one period of `temperature_Read`, tested one after the other in
stretches, end in the statics they started from. -/
theorem temperature_period_check :
    check_run temperature_Read temperature_test 818 0 { temp := 13316915 / 1048576, direction := 1 } =
      some { temp := 13316915 / 1048576, direction := 1 } := by
  have h1 := temperature_chunk_0
  have h2 := check_run_trans temperature_Read temperature_test _ _ _ _ _ _ h1 temperature_chunk_1
  have h3 := check_run_trans temperature_Read temperature_test _ _ _ _ _ _ h2 temperature_chunk_2
  have h4 := check_run_trans temperature_Read temperature_test _ _ _ _ _ _ h3 temperature_chunk_3
  have h5 := check_run_trans temperature_Read temperature_test _ _ _ _ _ _ h4 temperature_chunk_4
  have h6 := check_run_trans temperature_Read temperature_test _ _ _ _ _ _ h5 temperature_chunk_5
  have h7 := check_run_trans temperature_Read temperature_test _ _ _ _ _ _ h6 temperature_chunk_6
  have h8 := check_run_trans temperature_Read temperature_test _ _ _ _ _ _ h7 temperature_chunk_7
  have h9 := check_run_trans temperature_Read temperature_test _ _ _ _ _ _ h8 temperature_chunk_8
  have h10 := check_run_trans temperature_Read temperature_test _ _ _ _ _ _ h9 temperature_chunk_9
  have h11 := check_run_trans temperature_Read temperature_test _ _ _ _ _ _ h10 temperature_chunk_10
  have h12 := check_run_trans temperature_Read temperature_test _ _ _ _ _ _ h11 temperature_chunk_11
  have h13 := check_run_trans temperature_Read temperature_test _ _ _ _ _ _ h12 temperature_chunk_12
  exact h13

/-- The calls of one period of `humidity_Read`, tested one after the other in
stretches, end in the statics they started from. -/
theorem humidity_period_check :
    check_run humidity_Read humidity_test 108 0 { temp := 91 / 2, direction := 1 } =
      some { temp := 91 / 2, direction := 1 } := by
  have h1 := humidity_chunk_0
  have h2 := check_run_trans humidity_Read humidity_test _ _ _ _ _ _ h1 humidity_chunk_1
  exact h2

/-- Every call of `temperature_Read`, by its phase in the period of 818. -/
theorem temperature_wave (n : Nat) :
    wave_step_ok (13316915 / 2 ^ 20) (9751757 / 2 ^ 18) (3 / 50) (1 / 500000) 408 817
      (n % 818) (reads temperature_Read n temperature_init)
      (reads temperature_Read (n + 1) temperature_init) := by
  have h := temperature_period_check
  rw [← temperature_init_eq] at h
  exact wave_of_check temperature_Read temperature_init _ _ _ _ 408 817 h n

/-- Every call of `humidity_Read`, by its phase in the period of 108. -/
theorem humidity_wave (n : Nat) :
    wave_step_ok (91 / 2) (5255987 / 2 ^ 16) (13 / 20) (1 / 500000) 53 107
      (n % 108) (reads humidity_Read n humidity_init)
      (reads humidity_Read (n + 1) humidity_init) := by
  have h := humidity_period_check
  rw [← humidity_init_eq] at h
  exact wave_of_check humidity_Read humidity_init _ _ _ _ 53 107 h n

theorem temperature_nth_succ (n : Nat) :
    temperature_nth (n + 1) = (reads temperature_Read (n + 1) temperature_init).temp := by
  unfold temperature_nth temperature_Read
  rw [fake_read_fst, Nat.add_sub_cancel, reads_succ_apply]

theorem humidity_nth_succ (n : Nat) :
    humidity_nth (n + 1) = (reads humidity_Read (n + 1) humidity_init).temp := by
  unfold humidity_nth humidity_Read
  rw [fake_read_fst, Nat.add_sub_cancel, reads_succ_apply]

end HeriSure

namespace HeriSure

/-! ## The STATUS handler: accepted calls without a result -/

/-- C10 (as stated, refuted): zero arguments, or the single argument ?, with a
network mode code of 3 or -1, or in mode 1 with region code 13: the read of
nwm_list or regions_list is outside the array and the accepted call has no
defined result, so it does not return AT_OK. -/
theorem C10_accepted_call_without_result_counterexample :
    status_handler (nwm_api 3) 0 "STATUS" { argc := 0, argv := [] }
      (boot_state ⟨0xAA, 0⟩ ⟨0xAA, 0⟩) = none ∧
    status_handler (nwm_api (-1)) 0 "STATUS" query_param
      (boot_state ⟨0xAA, 0⟩ ⟨0xAA, 0⟩) = none ∧
    status_handler (otaa_api 13) 0 "STATUS" query_param
      (boot_state ⟨0xAA, 0⟩ ⟨0xAA, 0⟩) = none ∧
    table_at nwm_list 3 = none := by
  decide

/-! ## The simulated sensor: bounds and waveform -/

/-- C16 (as stated, refuted): call 409 of temperature_Read returns the float
nearest to 37.2, which is 9751757 / 2 ^ 18 and lies above 37.2, and call 818
returns the float nearest to 12.7, which is 13316915 / 2 ^ 20 and lies below
12.7. -/
theorem C16_temperature_outside_decimal_bounds_counterexample :
    temperature_nth 409 = 9751757 / 2 ^ 18 ∧ (186 / 5 : ℚ) < temperature_nth 409 ∧
    temperature_nth 818 = 13316915 / 2 ^ 20 ∧ temperature_nth 818 < (127 / 10 : ℚ) := by
  have h409 : temperature_nth 409 = 9751757 / 2 ^ 18 := by
    rw [temperature_nth_succ 408]
    exact ((temperature_wave 408).2.2.2.1 rfl).2.2.2
  have h818 : temperature_nth 818 = 13316915 / 2 ^ 20 := by
    rw [temperature_nth_succ 817]
    exact ((temperature_wave 817).2.2.2.2.2 rfl).2.2.2
  refine ⟨h409, ?_, h818, ?_⟩
  · rw [h409]; norm_num
  · rw [h818]; norm_num

/-- C16 (amended): for every n ≥ 1 the n-th value returned by temperature_Read
lies between the floats nearest to 12.7 and 37.2, which are 13316915 / 2 ^ 20 and
9751757 / 2 ^ 18, and the n-th value returned by humidity_Read lies between 45.5
and 80.2. -/
theorem C16_sensor_values_within_float_bounds (n : Nat) (hn : 1 ≤ n) :
    (to_float TEMPERATURE_MIN = 13316915 / 2 ^ 20 ∧
     to_float TEMPERATURE_MAX = 9751757 / 2 ^ 18) ∧
    (13316915 / 2 ^ 20 ≤ temperature_nth n ∧ temperature_nth n ≤ 9751757 / 2 ^ 18) ∧
    ((91 / 2 : ℚ) ≤ humidity_nth n ∧ humidity_nth n ≤ (401 / 5 : ℚ)) := by
  obtain ⟨m, rfl⟩ : ∃ m, n = m + 1 := ⟨n - 1, by omega⟩
  refine ⟨⟨to_float_bounds.1, to_float_bounds.2.1⟩, ⟨?_, ?_⟩, ⟨?_, ?_⟩⟩
  · rw [temperature_nth_succ]; exact (temperature_wave m).1
  · rw [temperature_nth_succ]; exact (temperature_wave m).2.1
  · rw [humidity_nth_succ]; exact (humidity_wave m).1
  · rw [humidity_nth_succ]
    exact le_trans (humidity_wave m).2.1 (by norm_num)

/-- C16 (amended) at the first call. -/
theorem C16_sensor_values_within_float_bounds_witness :
    (13316915 / 2 ^ 20 ≤ temperature_nth 1 ∧ temperature_nth 1 ≤ 9751757 / 2 ^ 18) ∧
    ((91 / 2 : ℚ) ≤ humidity_nth 1 ∧ humidity_nth 1 ≤ (401 / 5 : ℚ)) :=
  (C16_sensor_values_within_float_bounds 1 (Nat.le_refl 1)).2

/-- C17 (as stated, refuted): the first call of temperature_Read raises the
value by 62915 / 2 ^ 20, not by 0.06; call 409 returns 9751757 / 2 ^ 18, not
37.2, and call 818 returns 13316915 / 2 ^ 20, not 12.7; call 54 of humidity_Read
returns 5255987 / 2 ^ 16, not 80.2. -/
theorem C17_steps_and_bounds_are_rounded_counterexample :
    temperature_nth 1 - temperature_held 0 = 62915 / 2 ^ 20 ∧
    temperature_nth 1 - temperature_held 0 ≠ 3 / 50 ∧
    temperature_nth 409 ≠ 186 / 5 ∧ temperature_nth 818 ≠ 127 / 10 ∧
    humidity_nth 54 ≠ 401 / 5 := by
  have h1 : temperature_nth 1 - temperature_held 0 = 62915 / 2 ^ 20 := by decide!
  have h409 : temperature_nth 409 = 9751757 / 2 ^ 18 := by
    rw [temperature_nth_succ 408]
    exact ((temperature_wave 408).2.2.2.1 rfl).2.2.2
  have h818 : temperature_nth 818 = 13316915 / 2 ^ 20 := by
    rw [temperature_nth_succ 817]
    exact ((temperature_wave 817).2.2.2.2.2 rfl).2.2.2
  have h54 : humidity_nth 54 = 5255987 / 2 ^ 16 := by
    rw [humidity_nth_succ 53]
    exact ((humidity_wave 53).2.2.2.1 rfl).2.2.2
  refine ⟨h1, ?_, ?_, ?_, ?_⟩
  · rw [h1]; norm_num
  · rw [h409]; norm_num
  · rw [h818]; norm_num
  · rw [h54]; norm_num

/-- C17 (amended): temperature_Read starts at the float nearest to 12.7 with
direction up; with j the number of earlier calls modulo 818, a call with j below
408 raises the value by 0.06 up to 1 / 500000, the call with j = 408 raises it
to the float nearest to 37.2 and flips the direction, a call with j from 409 to
816 lowers the value by 0.06 up to 1 / 500000, and the call with j = 817 lowers
it to the float nearest to 12.7 and flips the direction back; every call
returns the value it stores. humidity_Read does the same with 45.5, the float
nearest to 80.2, the step 0.65, the turns at j = 53 and j = 107 and the period
108. -/
theorem C17_triangle_wave_up_to_rounding (n : Nat) :
    (temperature_init = { temp := 13316915 / 1048576, direction := 1 } ∧
     wave_step_ok (13316915 / 2 ^ 20) (9751757 / 2 ^ 18) (3 / 50) (1 / 500000) 408 817
       (n % 818) (reads temperature_Read n temperature_init)
       (reads temperature_Read (n + 1) temperature_init) ∧
     temperature_nth (n + 1) = (reads temperature_Read (n + 1) temperature_init).temp) ∧
    (humidity_init = { temp := 91 / 2, direction := 1 } ∧
     wave_step_ok (91 / 2) (5255987 / 2 ^ 16) (13 / 20) (1 / 500000) 53 107
       (n % 108) (reads humidity_Read n humidity_init)
       (reads humidity_Read (n + 1) humidity_init) ∧
     humidity_nth (n + 1) = (reads humidity_Read (n + 1) humidity_init).temp) ∧
    (to_float TEMPERATURE_MIN = 13316915 / 2 ^ 20 ∧ to_float TEMPERATURE_MAX = 9751757 / 2 ^ 18 ∧
     to_float HUMIDITY_MIN = 91 / 2 ∧ to_float HUMIDITY_MAX = 5255987 / 2 ^ 16) :=
  ⟨⟨temperature_init_eq, temperature_wave n, temperature_nth_succ n⟩,
   ⟨humidity_init_eq, humidity_wave n, humidity_nth_succ n⟩, to_float_bounds⟩

/-- C17 (amended) at the turn of the second temperature period (1226 earlier
calls, phase 408): call 1227 rises to 9751757 / 2 ^ 18 and flips the direction. -/
theorem C17_triangle_wave_up_to_rounding_witness :
    (reads temperature_Read 1227 temperature_init).direction = 0 ∧
    (reads temperature_Read 1226 temperature_init).temp <
      (reads temperature_Read 1227 temperature_init).temp ∧
    temperature_nth 1227 = 9751757 / 2 ^ 18 := by
  have h := (C17_triangle_wave_up_to_rounding 1226).1
  have ht := h.2.1.2.2.2.1 (by norm_num)
  exact ⟨ht.2.1, ht.2.2.1, by rw [h.2.2]; exact ht.2.2.2⟩

end HeriSure
